import Mathlib

/-!
PKC port of mbedTLS: the ECDH and RSA alternative implementations.

A shallow embedding of `port/pkc/ecdh_alt.c` and `port/pkc/rsa_alt.c`.

Conventions of the embedding.

* Every call to a collaborator outside the two files (hardware bring-up,
  the session triad, the engine primitives, the heap, the caller's random
  source, the big-integer library) is recorded as an `Event`; a run of an
  entry point yields its return code, the values of its output parameters
  and the list of events in program order.
* What a collaborator returns is read from an environment record, so every
  theorem quantifies over all possible behaviours of the collaborators.
* Constants and function-like definitions that come from headers which are
  not part of the two files are fields of `Consts`.
* Pointers are natural numbers, `0` is `NULL`.  A `uint32_t` is a natural
  number reduced modulo `2 ^ 32`; `size_t` expressions over bit lengths are
  computed without wrap-around.
* The entry points are modelled for non-null pointer arguments, the case in
  which the `*_VALIDATE_RET` lines let the call through.
-/

namespace PkcPort

/-! ## Machine integers and the big-integer interface -/

/-- Reduction of a natural number to the range of a C `uint32_t`. -/
def u32 (x : Nat) : Nat := x % 2 ^ 32

/-- An `mbedtls_mpi`, a sign-magnitude integer. -/
abbrev mbedtls_mpi := Int

/-- Bit length of a natural number, by repeated halving (`fuel` bounds the
number of halvings; `bitlenAux n n` never runs out). -/
def bitlenAux : Nat → Nat → Nat
  | 0, _ => 0
  | fuel + 1, n => if n = 0 then 0 else bitlenAux fuel (n / 2) + 1

/-- Modelled from the spec: the bit-length query of the big-integer library
(`mbedtls_mpi_bitlen`, not part of the two files): the number of bits of the
magnitude, `0` for the value zero. -/
def mbedtls_mpi_bitlen (X : mbedtls_mpi) : Nat := bitlenAux X.natAbs X.natAbs

/-- Modelled from the spec: the value of a byte string read most-significant
byte first (what `mbedtls_mpi_read_binary` stores in its destination). -/
def fromBytesBE (bytes : List Nat) : Nat :=
  bytes.foldl (fun acc b => acc * 256 + b) 0

/-- The first `len` bytes of a buffer that `mbedtls_calloc` zero-filled and
into which `bytes` were then written from its start. -/
def bufferPrefix (len : Nat) (bytes : List Nat) : List Nat :=
  (bytes ++ List.replicate len 0).take len

/-- The caller's buffer `buf` after a copy of `len` bytes to its start: the
first `len` bytes are those of `bytes`, the bytes from index `len` on are kept
(what `mcuxClMemory_copy (dst, src, len, len)` leaves in `dst`). -/
def overwriteStart (len : Nat) (bytes : List Nat) (buf : List Nat) : List Nat :=
  bufferPrefix len bytes ++ buf.drop len

/-! ## Constants from headers outside the two files -/

/-- The functions whose flow-protection token the two files compare against
`MCUX_CSSL_FP_FUNCTION_CALLED(...)`. -/
inductive FpFunction where
  | mcuxClEcc_PointMult
  | mcuxClSession_init
  | mcuxClRsa_verify
  | mcuxClRsa_sign
  | mcuxClMemory_copy
  | mcuxClSession_cleanup
  | mcuxClSession_destroy
  deriving DecidableEq

/-- The constants the two files use and do not define: mbedTLS error codes and
curve identifiers, engine status words, the expected flow-protection tokens,
the start address of the PKC RAM and the PKC word size in bytes. -/
structure Consts where
  MBEDTLS_ERR_ECP_BAD_INPUT_DATA : Int
  MBEDTLS_ERR_ECP_RANDOM_FAILED : Int
  MBEDTLS_ERR_ERROR_CORRUPTION_DETECTED : Int
  MBEDTLS_ERR_CCM_HW_ACCEL_FAILED : Int
  MBEDTLS_ERR_PLATFORM_HW_ACCEL_FAILED : Int
  MBEDTLS_ERR_RSA_BAD_INPUT_DATA : Int
  MBEDTLS_ERR_RSA_PUBLIC_FAILED : Int
  MBEDTLS_ERR_RSA_PRIVATE_FAILED : Int
  MBEDTLS_ECP_DP_CURVE25519 : Nat
  MBEDTLS_ECP_DP_CURVE448 : Nat
  MCUXCLECC_STATUS_POINTMULT_OK : Nat
  MCUXCLECC_STATUS_POINTMULT_INVALID_PARAMS : Nat
  MCUXCLECC_STATUS_POINTMULT_RNG_ERROR : Nat
  MCUXCLSESSION_STATUS_OK : Nat
  MCUXCLRSA_STATUS_VERIFYPRIMITIVE_OK : Nat
  MCUXCLRSA_STATUS_SIGN_OK : Nat
  MCUXCLRSA_STATUS_INVALID_INPUT : Nat
  MCUX_CSSL_FP_FUNCTION_CALLED : FpFunction → Nat
  MCUXCLPKC_RAM_START_ADDRESS : Nat
  MCUXCLPKC_WORDSIZE : Nat

/-- A concrete set of constants.  The mbedTLS error codes and curve
identifiers carry the values of the mbedTLS 2.x headers
(`ecp.h`, `error.h`, `ccm.h`, `platform.h`, `rsa.h`); the engine status
words, tokens, RAM address and word size are stand-in values, pairwise
distinct where they name different things. -/
def sampleConsts : Consts where
  MBEDTLS_ERR_ECP_BAD_INPUT_DATA := -0x4F80
  MBEDTLS_ERR_ECP_RANDOM_FAILED := -0x4D00
  MBEDTLS_ERR_ERROR_CORRUPTION_DETECTED := -0x006E
  MBEDTLS_ERR_CCM_HW_ACCEL_FAILED := -0x0011
  MBEDTLS_ERR_PLATFORM_HW_ACCEL_FAILED := -0x0070
  MBEDTLS_ERR_RSA_BAD_INPUT_DATA := -0x4080
  MBEDTLS_ERR_RSA_PUBLIC_FAILED := -0x4280
  MBEDTLS_ERR_RSA_PRIVATE_FAILED := -0x4300
  MBEDTLS_ECP_DP_CURVE25519 := 9
  MBEDTLS_ECP_DP_CURVE448 := 13
  MCUXCLECC_STATUS_POINTMULT_OK := 0xA5A5A5A5
  MCUXCLECC_STATUS_POINTMULT_INVALID_PARAMS := 0xA5A54A4A
  MCUXCLECC_STATUS_POINTMULT_RNG_ERROR := 0xA5A52727
  MCUXCLSESSION_STATUS_OK := 0x2E2E2E2E
  MCUXCLRSA_STATUS_VERIFYPRIMITIVE_OK := 0xF3F3F3F3
  MCUXCLRSA_STATUS_SIGN_OK := 0xF2F2F2F2
  MCUXCLRSA_STATUS_INVALID_INPUT := 0xF8F8F8F8
  MCUX_CSSL_FP_FUNCTION_CALLED := fun f =>
    match f with
    | .mcuxClEcc_PointMult => 0x1001
    | .mcuxClSession_init => 0x1002
    | .mcuxClRsa_verify => 0x1003
    | .mcuxClRsa_sign => 0x1004
    | .mcuxClMemory_copy => 0x1005
    | .mcuxClSession_cleanup => 0x1006
    | .mcuxClSession_destroy => 0x1007
  MCUXCLPKC_RAM_START_ADDRESS := 0x20008000
  MCUXCLPKC_WORDSIZE := 8

/-! ## Events -/

/-- The first argument handed to the caller's random source. -/
inductive RngArg where
  /-- The context `p_rng` supplied by the caller. -/
  | p_rng
  /-- The address of the local variable `rng_ctx`. -/
  | rng_ctx
  deriving DecidableEq

/-- The big integers the two files marshal into or out of byte buffers. -/
inductive Operand where
  | d | z | QX | QY | QZ
  | N | E | P | Q | QP | DP | DQ
  deriving DecidableEq

/-- A call that leaves the two files, with the arguments that matter. -/
inductive Event where
  | mbedtls_hw_init
  | mcuxClSession_init
  | mbedtls_calloc (nmemb : Nat) (ptr : Nat)
  | mbedtls_ecp_setupDomainParams
  | f_rng (ctx : RngArg) (buf : Nat) (len : Nat)
  | mbedtls_mpi_write_binary (X : Operand) (buf : Nat) (buflen : Nat)
  | mcuxClEcc_PointMult
  | mcuxClRsa_verify
  | mcuxClRsa_sign
  | pkcWa_used_add (words : Nat)
  | pkcWa_used_sub (words : Nat)
  | mcuxClMemory_copy (src : Nat) (len : Nat)
  | mbedtls_mpi_read_binary (X : Operand) (buf : Nat) (buflen : Nat)
  | mbedtls_mpi_lset (X : Operand) (z : Int)
  | mbedtls_free (ptr : Nat)
  | mcuxClSession_cleanup
  | mcuxClSession_destroy
  deriving DecidableEq

/-! ## ecdh_alt.c -/

/-- The fields of `mbedtls_ecp_group` the file reads. -/
structure mbedtls_ecp_group where
  pbits : Nat
  nbits : Nat
  deriving DecidableEq

/-- An `mbedtls_ecp_point`. -/
structure mbedtls_ecp_point where
  X : mbedtls_mpi
  Y : mbedtls_mpi
  Z : mbedtls_mpi
  deriving DecidableEq

/-- An `mcuxClEcc_DomainParam_t`: five buffer pointers and `misc`. -/
structure mcuxClEcc_DomainParam_t where
  pA : Nat
  pB : Nat
  pP : Nat
  pG : Nat
  pN : Nat
  misc : Nat
  deriving DecidableEq

/-- An `mcuxClEcc_PointMult_Param_t`. -/
structure mcuxClEcc_PointMult_Param_t where
  curveParam : mcuxClEcc_DomainParam_t
  pScalar : Nat
  pPoint : Nat
  pResult : Nat
  optLen : Nat
  deriving DecidableEq

/-- The function `mbedtls_ecp_free_ecdh`: the pointers it passes to
`mbedtls_free`, in order.  A null structure pointer is `none`. -/
def mbedtls_ecp_free_ecdh (pDomainParams : Option mcuxClEcc_DomainParam_t)
    (pPointMultParams : Option mcuxClEcc_PointMult_Param_t) : List Nat :=
  (match pDomainParams, pPointMultParams with
    | some dp, some pm => if dp.pG ≠ pm.pPoint then [pm.pPoint] else []
    | _, _ => []) ++
  (match pDomainParams with
    | some dp => [dp.pA, dp.pB, dp.pP, dp.pG, dp.pN]
    | none => []) ++
  (match pPointMultParams with
    | some pm => [pm.pScalar, pm.pResult]
    | none => [])

/-- The events of one call of `mbedtls_ecp_free_ecdh`. -/
def freeEvents (pDomainParams : Option mcuxClEcc_DomainParam_t)
    (pPointMultParams : Option mcuxClEcc_PointMult_Param_t) : List Event :=
  (mbedtls_ecp_free_ecdh pDomainParams pPointMultParams).map Event.mbedtls_free

/-- The pointers returned by the `mbedtls_calloc` calls of one ECDH
operation, named after the variable or field each one initialises. -/
structure EcdhAlloc where
  pA : Nat
  pB : Nat
  pP : Nat
  pG : Nat
  pN : Nat
  pScalar : Nat
  pPoint : Nat
  pResult : Nat
  deriving DecidableEq

/-- What the collaborators of an ECDH operation return. -/
structure EcdhEnv where
  /-- Return value of `mbedtls_hw_init()`. -/
  mbedtls_hw_init : Int
  /-- Results of the `mbedtls_calloc` calls. -/
  calloc : EcdhAlloc
  /-- Return value of `mbedtls_ecp_setupDomainParams`. -/
  mbedtls_ecp_setupDomainParams : mbedtls_ecp_group → Nat
  /-- The caller's random source: from its context argument and the requested
  length, the return code and the bytes written. -/
  f_rng : RngArg → Nat → Int × List Nat
  /-- Return value of `mbedtls_mpi_write_binary` for a value and a length. -/
  mbedtls_mpi_write_binary : mbedtls_mpi → Nat → Int
  /-- Status word returned by `mcuxClEcc_PointMult`. -/
  retEccPointMult : Nat
  /-- Flow-protection token returned by `mcuxClEcc_PointMult`. -/
  tokenEccPointMult : Nat
  /-- Content of the result buffer after `mcuxClEcc_PointMult`. -/
  pResultBytes : List Nat

/-- Outcome of `mbedtls_ecdh_gen_public`. -/
structure GenPublicResult where
  ret : Int
  d : mbedtls_mpi
  Q : mbedtls_ecp_point
  trace : List Event
  deriving DecidableEq

/-- Outcome of `mbedtls_ecdh_compute_shared`. -/
structure ComputeSharedResult where
  ret : Int
  z : mbedtls_mpi
  trace : List Event
  deriving DecidableEq

/-- The function `mbedtls_ecdh_gen_public`. -/
def mbedtls_ecdh_gen_public (K : Consts) (env : EcdhEnv) (grp : mbedtls_ecp_group)
    (d : mbedtls_mpi) (Q : mbedtls_ecp_point) : GenPublicResult :=
  if env.mbedtls_hw_init ≠ 0 then
    { ret := K.MBEDTLS_ERR_CCM_HW_ACCEL_FAILED, d := d, Q := Q,
      trace := [Event.mbedtls_hw_init] }
  else
    let pByteLength := u32 ((grp.pbits + 7) / 8)
    let nByteLength := u32 ((grp.nbits + 7) / 8)
    let pDomainParams : mcuxClEcc_DomainParam_t :=
      { pA := env.calloc.pA, pB := env.calloc.pB, pP := env.calloc.pP,
        pG := env.calloc.pG, pN := env.calloc.pN, misc := 0 }
    let t1 : List Event :=
      [Event.mbedtls_hw_init, Event.mcuxClSession_init,
       Event.mbedtls_calloc pByteLength env.calloc.pA,
       Event.mbedtls_calloc pByteLength env.calloc.pB,
       Event.mbedtls_calloc pByteLength env.calloc.pP,
       Event.mbedtls_calloc (u32 (pByteLength * 2)) env.calloc.pG,
       Event.mbedtls_calloc nByteLength env.calloc.pN,
       Event.mbedtls_ecp_setupDomainParams]
    if env.mbedtls_ecp_setupDomainParams grp ≠ 0 then
      { ret := K.MBEDTLS_ERR_ERROR_CORRUPTION_DETECTED, d := d, Q := Q,
        trace := t1 ++ freeEvents (some pDomainParams) none }
    else
      let pScalar := env.calloc.pScalar
      let rng := env.f_rng RngArg.rng_ctx nByteLength
      let t2 : List Event :=
        t1 ++ [Event.mbedtls_calloc nByteLength pScalar,
               Event.f_rng RngArg.rng_ctx pScalar nByteLength]
      if rng.1 ≠ 0 then
        { ret := K.MBEDTLS_ERR_ERROR_CORRUPTION_DETECTED, d := d, Q := Q, trace := t2 }
      else
        let pResult := env.calloc.pResult
        let PointMultParams : mcuxClEcc_PointMult_Param_t :=
          { curveParam := pDomainParams, pScalar := pScalar,
            pPoint := pDomainParams.pG, pResult := pResult, optLen := 0 }
        let t3 : List Event :=
          t2 ++ [Event.mbedtls_calloc (u32 (pByteLength * 2)) pResult,
                 Event.mcuxClEcc_PointMult]
        let cleanup := freeEvents (some pDomainParams) (some PointMultParams)
        if K.MCUX_CSSL_FP_FUNCTION_CALLED FpFunction.mcuxClEcc_PointMult
            ≠ env.tokenEccPointMult then
          { ret := K.MBEDTLS_ERR_ERROR_CORRUPTION_DETECTED, d := d, Q := Q,
            trace := t3 ++ cleanup }
        else if K.MCUXCLECC_STATUS_POINTMULT_INVALID_PARAMS = env.retEccPointMult then
          { ret := K.MBEDTLS_ERR_ECP_BAD_INPUT_DATA, d := d, Q := Q,
            trace := t3 ++ cleanup }
        else if K.MCUXCLECC_STATUS_POINTMULT_RNG_ERROR = env.retEccPointMult then
          { ret := K.MBEDTLS_ERR_ECP_RANDOM_FAILED, d := d, Q := Q,
            trace := t3 ++ cleanup }
        else if K.MCUXCLECC_STATUS_POINTMULT_OK ≠ env.retEccPointMult then
          { ret := K.MBEDTLS_ERR_ERROR_CORRUPTION_DETECTED, d := d, Q := Q,
            trace := t3 ++ cleanup }
        else
          let scalarBytes := bufferPrefix nByteLength rng.2
          let resultBytes := bufferPrefix (u32 (pByteLength * 2)) env.pResultBytes
          { ret := 0,
            d := Int.ofNat (fromBytesBE scalarBytes),
            Q := { X := Int.ofNat (fromBytesBE (resultBytes.take pByteLength)),
                   Y := Int.ofNat (fromBytesBE ((resultBytes.drop pByteLength).take pByteLength)),
                   Z := 1 },
            trace := t3 ++
              [Event.mbedtls_mpi_read_binary Operand.d pScalar nByteLength,
               Event.mbedtls_mpi_read_binary Operand.QX pResult pByteLength,
               Event.mbedtls_mpi_read_binary Operand.QY (pResult + pByteLength) pByteLength,
               Event.mbedtls_mpi_lset Operand.QZ 1] ++
              cleanup ++ [Event.mcuxClSession_cleanup, Event.mcuxClSession_destroy] }

/-- The function `mbedtls_ecdh_compute_shared`. -/
def mbedtls_ecdh_compute_shared (K : Consts) (env : EcdhEnv) (grp : mbedtls_ecp_group)
    (z : mbedtls_mpi) (Q : mbedtls_ecp_point) (d : mbedtls_mpi) : ComputeSharedResult :=
  if env.mbedtls_hw_init ≠ 0 then
    { ret := K.MBEDTLS_ERR_CCM_HW_ACCEL_FAILED, z := z, trace := [Event.mbedtls_hw_init] }
  else
    let pByteLength := u32 ((grp.pbits + 7) / 8)
    let nByteLength := u32 ((grp.nbits + 7) / 8)
    let pDomainParams : mcuxClEcc_DomainParam_t :=
      { pA := env.calloc.pA, pB := env.calloc.pB, pP := env.calloc.pP,
        pG := env.calloc.pG, pN := env.calloc.pN, misc := 0 }
    let t1 : List Event :=
      [Event.mbedtls_hw_init, Event.mcuxClSession_init,
       Event.mbedtls_calloc pByteLength env.calloc.pA,
       Event.mbedtls_calloc pByteLength env.calloc.pB,
       Event.mbedtls_calloc pByteLength env.calloc.pP,
       Event.mbedtls_calloc (u32 (pByteLength * 2)) env.calloc.pG,
       Event.mbedtls_calloc nByteLength env.calloc.pN,
       Event.mbedtls_ecp_setupDomainParams]
    if env.mbedtls_ecp_setupDomainParams grp ≠ 0 then
      { ret := K.MBEDTLS_ERR_ERROR_CORRUPTION_DETECTED, z := z,
        trace := t1 ++ freeEvents (some pDomainParams) none }
    else
      let pResult := env.calloc.pResult
      let PointMultParams : mcuxClEcc_PointMult_Param_t :=
        { curveParam := pDomainParams, pScalar := env.calloc.pScalar,
          pPoint := env.calloc.pPoint, pResult := pResult, optLen := 0 }
      let cleanup := freeEvents (some pDomainParams) (some PointMultParams)
      let t2 : List Event :=
        t1 ++ [Event.mbedtls_calloc (u32 (pByteLength * 2)) pResult,
               Event.mbedtls_calloc nByteLength PointMultParams.pScalar,
               Event.mbedtls_calloc (u32 (pByteLength * 2)) PointMultParams.pPoint,
               Event.mbedtls_mpi_write_binary Operand.QX PointMultParams.pPoint pByteLength]
      if env.mbedtls_mpi_write_binary Q.X pByteLength ≠ 0 then
        { ret := K.MBEDTLS_ERR_ERROR_CORRUPTION_DETECTED, z := z, trace := t2 ++ cleanup }
      else
        let t3 : List Event :=
          t2 ++ [Event.mbedtls_mpi_write_binary Operand.QY
                   (PointMultParams.pPoint + pByteLength) pByteLength]
        if env.mbedtls_mpi_write_binary Q.Y pByteLength ≠ 0 then
          { ret := K.MBEDTLS_ERR_ERROR_CORRUPTION_DETECTED, z := z, trace := t3 ++ cleanup }
        else
          let t4 : List Event :=
            t3 ++ [Event.mbedtls_mpi_write_binary Operand.d
                     PointMultParams.pScalar nByteLength]
          if env.mbedtls_mpi_write_binary d nByteLength ≠ 0 then
            { ret := K.MBEDTLS_ERR_ERROR_CORRUPTION_DETECTED, z := z, trace := t4 ++ cleanup }
          else
            let t5 : List Event := t4 ++ [Event.mcuxClEcc_PointMult]
            if K.MCUX_CSSL_FP_FUNCTION_CALLED FpFunction.mcuxClEcc_PointMult
                ≠ env.tokenEccPointMult then
              { ret := K.MBEDTLS_ERR_ERROR_CORRUPTION_DETECTED, z := z,
                trace := t5 ++ cleanup }
            else if K.MCUXCLECC_STATUS_POINTMULT_INVALID_PARAMS = env.retEccPointMult then
              { ret := K.MBEDTLS_ERR_ECP_BAD_INPUT_DATA, z := z, trace := t5 ++ cleanup }
            else if K.MCUXCLECC_STATUS_POINTMULT_RNG_ERROR = env.retEccPointMult then
              { ret := K.MBEDTLS_ERR_ECP_RANDOM_FAILED, z := z, trace := t5 ++ cleanup }
            else if K.MCUXCLECC_STATUS_POINTMULT_OK ≠ env.retEccPointMult then
              { ret := K.MBEDTLS_ERR_ERROR_CORRUPTION_DETECTED, z := z,
                trace := t5 ++ cleanup }
            else
              let resultBytes := bufferPrefix (u32 (pByteLength * 2)) env.pResultBytes
              { ret := 0,
                z := Int.ofNat (fromBytesBE (resultBytes.take pByteLength)),
                trace := t5 ++
                  [Event.mbedtls_mpi_read_binary Operand.z pResult pByteLength] ++
                  cleanup ++ [Event.mcuxClSession_cleanup, Event.mcuxClSession_destroy] }

/-- The function `mbedtls_ecdh_can_do` on a curve identifier. -/
def mbedtls_ecdh_can_do (K : Consts) (gid : Nat) : Int :=
  if K.MBEDTLS_ECP_DP_CURVE25519 = gid ∨ K.MBEDTLS_ECP_DP_CURVE448 = gid then 0 else 1

/-! ## rsa_alt.c -/

/-- The fields of `mbedtls_rsa_context` the file reads. -/
structure mbedtls_rsa_context where
  len : Nat
  N : mbedtls_mpi
  E : mbedtls_mpi
  P : mbedtls_mpi
  Q : mbedtls_mpi
  DP : mbedtls_mpi
  DQ : mbedtls_mpi
  QP : mbedtls_mpi
  deriving DecidableEq

/-- An `mcuxClRsa_KeyEntry_t`: pointer and exact byte length. -/
structure mcuxClRsa_KeyEntry_t where
  pKeyEntryData : Nat
  keyEntryLength : Nat
  deriving DecidableEq

/-- The two key types the file builds. -/
inductive KeyType where
  | MCUXCLRSA_KEY_PUBLIC
  | MCUXCLRSA_KEY_PRIVATECRT
  deriving DecidableEq

/-- An `mcuxClRsa_Key`; a null entry pointer is `none`. -/
structure mcuxClRsa_Key where
  keytype : KeyType
  pMod1 : Option mcuxClRsa_KeyEntry_t
  pMod2 : Option mcuxClRsa_KeyEntry_t
  pQInv : Option mcuxClRsa_KeyEntry_t
  pExp1 : Option mcuxClRsa_KeyEntry_t
  pExp2 : Option mcuxClRsa_KeyEntry_t
  pExp3 : Option mcuxClRsa_KeyEntry_t
  deriving DecidableEq

/-- What the collaborators of an RSA operation return. -/
structure RsaEnv where
  /-- Return value of `rsa_check_context` for a context and its two flags. -/
  rsa_check_context : mbedtls_rsa_context → Int → Int → Int
  /-- Return value of `mbedtls_hw_init()`. -/
  mbedtls_hw_init : Int
  si_status : Nat
  si_token : Nat
  verify_result : Nat
  verify_token : Nat
  sign_result : Nat
  sign_token : Nat
  /-- Content of the result buffer `pBuf` after the verify or sign call. -/
  pBufBytes : List Nat
  retMemCpy : Nat
  tokenMemCpy : Nat
  cleanup_result : Nat
  cleanup_token : Nat
  destroy_result : Nat
  destroy_token : Nat

/-- Outcome of `mbedtls_rsa_public` and `mbedtls_rsa_private`: return code,
content of the caller's output buffer, the key stored into `ctx->rsa_key`
(`none` while the field has not been assigned) and the events. -/
structure RsaResult where
  ret : Int
  output : List Nat
  rsa_key : Option mcuxClRsa_Key
  trace : List Event
  deriving DecidableEq

/-- Modelled from the spec: the header definition `MCUXCLPKC_ROUNDUP_SIZE`, which
is not part of the two files; it rounds a byte length up to a multiple of the
PKC word size, in `uint32_t` arithmetic. -/
def MCUXCLPKC_ROUNDUP_SIZE (K : Consts) (byteLen : Nat) : Nat :=
  u32 (u32 (u32 (byteLen + K.MCUXCLPKC_WORDSIZE - 1) / K.MCUXCLPKC_WORDSIZE)
    * K.MCUXCLPKC_WORDSIZE)

/-- The value of `pkcWaSize` in `mbedtls_rsa_public`. -/
def rsa_public_pkcWaSize (K : Consts) (nByteLength : Nat) : Nat :=
  MCUXCLPKC_ROUNDUP_SIZE K (u32 (u32 (nByteLength + nByteLength) + nByteLength))

/-- The pointers `pMod`, `pExp`, `pBuf` set in `mbedtls_rsa_public`. -/
structure RsaPublicPtrs where
  pMod : Nat
  pExp : Nat
  pBuf : Nat
  deriving DecidableEq

/-- The block "Set pointers in PKC" of `mbedtls_rsa_public`. -/
def rsa_public_ptrs (K : Consts) (nByteLength : Nat) : RsaPublicPtrs :=
  let pPkcRam := K.MCUXCLPKC_RAM_START_ADDRESS
  let pMod := pPkcRam
  let pExp := pMod + nByteLength
  let pBuf := pExp + nByteLength
  { pMod := pMod, pExp := pExp, pBuf := pBuf }

/-- The function `mbedtls_rsa_public`. -/
def mbedtls_rsa_public (K : Consts) (env : RsaEnv) (ctx : mbedtls_rsa_context)
    (output : List Nat) : RsaResult :=
  if env.rsa_check_context ctx 0 0 ≠ 0 then
    { ret := K.MBEDTLS_ERR_RSA_BAD_INPUT_DATA, output := output, rsa_key := none, trace := [] }
  else if env.mbedtls_hw_init ≠ 0 then
    { ret := K.MBEDTLS_ERR_PLATFORM_HW_ACCEL_FAILED, output := output, rsa_key := none,
      trace := [Event.mbedtls_hw_init] }
  else
    let nByteLength := u32 ctx.len
    let pkcWaSize := rsa_public_pkcWaSize K nByteLength
    let t1 : List Event := [Event.mbedtls_hw_init, Event.mcuxClSession_init]
    if K.MCUX_CSSL_FP_FUNCTION_CALLED FpFunction.mcuxClSession_init ≠ env.si_token
        ∨ K.MCUXCLSESSION_STATUS_OK ≠ env.si_status then
      { ret := K.MBEDTLS_ERR_RSA_PUBLIC_FAILED, output := output, rsa_key := none, trace := t1 }
    else
      let ptrs := rsa_public_ptrs K nByteLength
      let modByteLength := (mbedtls_mpi_bitlen ctx.N + 7) / 8
      let expByteLength := (mbedtls_mpi_bitlen ctx.E + 7) / 8
      if nByteLength ≠ modByteLength then
        { ret := K.MBEDTLS_ERR_RSA_BAD_INPUT_DATA, output := output, rsa_key := none,
          trace := t1 }
      else
        let kMod : mcuxClRsa_KeyEntry_t :=
          { pKeyEntryData := ptrs.pMod, keyEntryLength := u32 modByteLength }
        let kExp : mcuxClRsa_KeyEntry_t :=
          { pKeyEntryData := ptrs.pExp, keyEntryLength := u32 expByteLength }
        let public_key : mcuxClRsa_Key :=
          { keytype := KeyType.MCUXCLRSA_KEY_PUBLIC,
            pMod1 := some kMod, pMod2 := none, pQInv := none,
            pExp1 := some kExp, pExp2 := none, pExp3 := none }
        let t2 : List Event :=
          t1 ++ [Event.mbedtls_mpi_write_binary Operand.N ptrs.pMod modByteLength,
                 Event.mbedtls_mpi_write_binary Operand.E ptrs.pExp expByteLength,
                 Event.pkcWa_used_add (pkcWaSize / 4),
                 Event.mcuxClRsa_verify]
        if K.MCUX_CSSL_FP_FUNCTION_CALLED FpFunction.mcuxClRsa_verify ≠ env.verify_token
            ∨ K.MCUXCLRSA_STATUS_VERIFYPRIMITIVE_OK ≠ env.verify_result then
          { ret := K.MBEDTLS_ERR_RSA_PUBLIC_FAILED, output := output,
            rsa_key := some public_key, trace := t2 }
        else
          let t3 : List Event :=
            t2 ++ [Event.pkcWa_used_sub (pkcWaSize / 4),
                   Event.mcuxClMemory_copy ptrs.pBuf nByteLength]
          let copied := overwriteStart nByteLength env.pBufBytes output
          if K.MCUX_CSSL_FP_FUNCTION_CALLED FpFunction.mcuxClMemory_copy ≠ env.tokenMemCpy
              ∧ 0 ≠ env.retMemCpy then
            { ret := K.MBEDTLS_ERR_RSA_PUBLIC_FAILED, output := copied,
              rsa_key := some public_key, trace := t3 }
          else
            let t4 : List Event := t3 ++ [Event.mcuxClSession_cleanup]
            if K.MCUX_CSSL_FP_FUNCTION_CALLED FpFunction.mcuxClSession_cleanup
                  ≠ env.cleanup_token
                ∨ K.MCUXCLSESSION_STATUS_OK ≠ env.cleanup_result then
              { ret := K.MBEDTLS_ERR_RSA_PUBLIC_FAILED, output := copied,
                rsa_key := some public_key, trace := t4 }
            else
              let t5 : List Event := t4 ++ [Event.mcuxClSession_destroy]
              if K.MCUX_CSSL_FP_FUNCTION_CALLED FpFunction.mcuxClSession_destroy
                    ≠ env.destroy_token
                  ∨ K.MCUXCLSESSION_STATUS_OK ≠ env.destroy_result then
                { ret := K.MBEDTLS_ERR_RSA_PUBLIC_FAILED, output := copied,
                  rsa_key := some public_key, trace := t5 }
              else
                { ret := 0, output := copied, rsa_key := some public_key, trace := t5 }

/-- The value of `pqByteLength` in `mbedtls_rsa_private`. -/
def rsa_private_pqByteLength (nByteLength : Nat) : Nat := u32 (nByteLength + 1) / 2

/-- The value of `pkcWaSize` in `mbedtls_rsa_private`. -/
def rsa_private_pkcWaSize (K : Consts) (nByteLength : Nat) : Nat :=
  let pqByteLength := rsa_private_pqByteLength nByteLength
  MCUXCLPKC_ROUNDUP_SIZE K
    (u32 (u32 (u32 (u32 (u32 (2 * pqByteLength) + pqByteLength) + u32 (2 * pqByteLength))
      + nByteLength) + nByteLength))

/-- The pointers set in `mbedtls_rsa_private`. -/
structure RsaPrivatePtrs where
  pP : Nat
  pQ : Nat
  pQ_inv : Nat
  pDP : Nat
  pDQ : Nat
  pE : Nat
  pBuf : Nat
  deriving DecidableEq

/-- The block "Set pointers in PKC" of `mbedtls_rsa_private`. -/
def rsa_private_ptrs (K : Consts) (nByteLength : Nat) : RsaPrivatePtrs :=
  let pqByteLength := rsa_private_pqByteLength nByteLength
  let pPkcRam := K.MCUXCLPKC_RAM_START_ADDRESS
  let pP := pPkcRam
  let pQ := pP + pqByteLength
  let pQ_inv := pQ + pqByteLength
  let pDP := pQ_inv + pqByteLength
  let pDQ := pDP + pqByteLength
  let pE := pDQ + pqByteLength
  let pBuf := pE + nByteLength
  { pP := pP, pQ := pQ, pQ_inv := pQ_inv, pDP := pDP, pDQ := pDQ, pE := pE, pBuf := pBuf }

/-- The function `mbedtls_rsa_private`. -/
def mbedtls_rsa_private (K : Consts) (env : RsaEnv) (ctx : mbedtls_rsa_context)
    (output : List Nat) : RsaResult :=
  if env.rsa_check_context ctx 1 1 ≠ 0 then
    { ret := K.MBEDTLS_ERR_RSA_BAD_INPUT_DATA, output := output, rsa_key := none, trace := [] }
  else if env.mbedtls_hw_init ≠ 0 then
    { ret := K.MBEDTLS_ERR_PLATFORM_HW_ACCEL_FAILED, output := output, rsa_key := none,
      trace := [Event.mbedtls_hw_init] }
  else
    let nByteLength := u32 ctx.len
    let pqByteLength := rsa_private_pqByteLength nByteLength
    let pkcWaSize := rsa_private_pkcWaSize K nByteLength
    let t1 : List Event := [Event.mbedtls_hw_init, Event.mcuxClSession_init]
    if K.MCUX_CSSL_FP_FUNCTION_CALLED FpFunction.mcuxClSession_init ≠ env.si_token
        ∨ K.MCUXCLSESSION_STATUS_OK ≠ env.si_status then
      { ret := K.MBEDTLS_ERR_RSA_PRIVATE_FAILED, output := output, rsa_key := none, trace := t1 }
    else
      let ptrs := rsa_private_ptrs K nByteLength
      let pByteLength := (mbedtls_mpi_bitlen ctx.P + 7) / 8
      let qByteLength := (mbedtls_mpi_bitlen ctx.Q + 7) / 8
      let q_invByteLength := (mbedtls_mpi_bitlen ctx.QP + 7) / 8
      let dpByteLength := (mbedtls_mpi_bitlen ctx.DP + 7) / 8
      let dqByteLength := (mbedtls_mpi_bitlen ctx.DQ + 7) / 8
      let eByteLength := (mbedtls_mpi_bitlen ctx.E + 7) / 8
      if pqByteLength ≠ pByteLength ∨ pqByteLength ≠ qByteLength then
        { ret := K.MBEDTLS_ERR_RSA_BAD_INPUT_DATA, output := output, rsa_key := none,
          trace := t1 }
      else
        let kP : mcuxClRsa_KeyEntry_t :=
          { pKeyEntryData := ptrs.pP, keyEntryLength := u32 pByteLength }
        let kQ : mcuxClRsa_KeyEntry_t :=
          { pKeyEntryData := ptrs.pQ, keyEntryLength := u32 qByteLength }
        let kQ_inv : mcuxClRsa_KeyEntry_t :=
          { pKeyEntryData := ptrs.pQ_inv, keyEntryLength := u32 q_invByteLength }
        let kDP : mcuxClRsa_KeyEntry_t :=
          { pKeyEntryData := ptrs.pDP, keyEntryLength := u32 dpByteLength }
        let kDQ : mcuxClRsa_KeyEntry_t :=
          { pKeyEntryData := ptrs.pDQ, keyEntryLength := u32 dqByteLength }
        let kE : mcuxClRsa_KeyEntry_t :=
          { pKeyEntryData := ptrs.pE, keyEntryLength := u32 eByteLength }
        let private_key : mcuxClRsa_Key :=
          { keytype := KeyType.MCUXCLRSA_KEY_PRIVATECRT,
            pMod1 := some kP, pMod2 := some kQ, pQInv := some kQ_inv,
            pExp1 := some kDP, pExp2 := some kDQ, pExp3 := some kE }
        let t2 : List Event :=
          t1 ++ [Event.mbedtls_mpi_write_binary Operand.P ptrs.pP pByteLength,
                 Event.mbedtls_mpi_write_binary Operand.Q ptrs.pQ qByteLength,
                 Event.mbedtls_mpi_write_binary Operand.QP ptrs.pQ_inv q_invByteLength,
                 Event.mbedtls_mpi_write_binary Operand.DP ptrs.pDP dpByteLength,
                 Event.mbedtls_mpi_write_binary Operand.DQ ptrs.pDQ dqByteLength,
                 Event.mbedtls_mpi_write_binary Operand.E ptrs.pE eByteLength,
                 Event.pkcWa_used_add (pkcWaSize / 4),
                 Event.mcuxClRsa_sign]
        if K.MCUX_CSSL_FP_FUNCTION_CALLED FpFunction.mcuxClRsa_sign ≠ env.sign_token
            ∨ K.MCUXCLRSA_STATUS_SIGN_OK ≠ env.sign_result then
          if K.MCUXCLRSA_STATUS_INVALID_INPUT = env.sign_result then
            { ret := K.MBEDTLS_ERR_RSA_BAD_INPUT_DATA, output := output,
              rsa_key := some private_key, trace := t2 }
          else
            { ret := K.MBEDTLS_ERR_RSA_PRIVATE_FAILED, output := output,
              rsa_key := some private_key, trace := t2 }
        else
          let t3 : List Event :=
            t2 ++ [Event.pkcWa_used_sub (pkcWaSize / 4),
                   Event.mcuxClMemory_copy ptrs.pBuf nByteLength]
          let copied := overwriteStart nByteLength env.pBufBytes output
          if K.MCUX_CSSL_FP_FUNCTION_CALLED FpFunction.mcuxClMemory_copy ≠ env.tokenMemCpy
              ∧ 0 ≠ env.retMemCpy then
            { ret := K.MBEDTLS_ERR_RSA_PRIVATE_FAILED, output := copied,
              rsa_key := some private_key, trace := t3 }
          else
            let t4 : List Event := t3 ++ [Event.mcuxClSession_cleanup]
            if K.MCUX_CSSL_FP_FUNCTION_CALLED FpFunction.mcuxClSession_cleanup
                  ≠ env.cleanup_token
                ∨ K.MCUXCLSESSION_STATUS_OK ≠ env.cleanup_result then
              { ret := K.MBEDTLS_ERR_RSA_PRIVATE_FAILED, output := copied,
                rsa_key := some private_key, trace := t4 }
            else
              let t5 : List Event := t4 ++ [Event.mcuxClSession_destroy]
              if K.MCUX_CSSL_FP_FUNCTION_CALLED FpFunction.mcuxClSession_destroy
                    ≠ env.destroy_token
                  ∨ K.MCUXCLSESSION_STATUS_OK ≠ env.destroy_result then
                { ret := K.MBEDTLS_ERR_RSA_PRIVATE_FAILED, output := copied,
                  rsa_key := some private_key, trace := t5 }
              else
                { ret := 0, output := copied, rsa_key := some private_key, trace := t5 }

/-! ## Properties stated by the specification -/

/-- The token/status table the specification gives for a point
multiplication: `ret` is the return code prescribed for the pair
(`token`, `status`). -/
def FollowsPointMultTable (K : Consts) (token status : Nat) (ret : Int) : Prop :=
  (token ≠ K.MCUX_CSSL_FP_FUNCTION_CALLED FpFunction.mcuxClEcc_PointMult →
    ret = K.MBEDTLS_ERR_ERROR_CORRUPTION_DETECTED) ∧
  (token = K.MCUX_CSSL_FP_FUNCTION_CALLED FpFunction.mcuxClEcc_PointMult →
    (status = K.MCUXCLECC_STATUS_POINTMULT_INVALID_PARAMS →
      ret = K.MBEDTLS_ERR_ECP_BAD_INPUT_DATA) ∧
    (status = K.MCUXCLECC_STATUS_POINTMULT_RNG_ERROR →
      ret = K.MBEDTLS_ERR_ECP_RANDOM_FAILED) ∧
    (status = K.MCUXCLECC_STATUS_POINTMULT_OK → ret = 0) ∧
    (status ≠ K.MCUXCLECC_STATUS_POINTMULT_INVALID_PARAMS →
      status ≠ K.MCUXCLECC_STATUS_POINTMULT_RNG_ERROR →
      status ≠ K.MCUXCLECC_STATUS_POINTMULT_OK →
      ret = K.MBEDTLS_ERR_ERROR_CORRUPTION_DETECTED))

/-- The three point-multiplication status words are pairwise different. -/
def PointMultStatusDistinct (K : Consts) : Prop :=
  K.MCUXCLECC_STATUS_POINTMULT_OK ≠ K.MCUXCLECC_STATUS_POINTMULT_INVALID_PARAMS ∧
  K.MCUXCLECC_STATUS_POINTMULT_OK ≠ K.MCUXCLECC_STATUS_POINTMULT_RNG_ERROR ∧
  K.MCUXCLECC_STATUS_POINTMULT_INVALID_PARAMS ≠ K.MCUXCLECC_STATUS_POINTMULT_RNG_ERROR

/-! ## Sample inputs -/

/-- A group with a 256-bit prime and a 256-bit order. -/
def sampleGrp : mbedtls_ecp_group := { pbits := 256, nbits := 256 }

/-- Eight distinct non-null heap pointers. -/
def sampleAlloc : EcdhAlloc :=
  { pA := 0x1000, pB := 0x1100, pP := 0x1200, pG := 0x1300, pN := 0x1400,
    pScalar := 0x1500, pPoint := 0x1600, pResult := 0x1700 }

/-- An ECDH environment in which bring-up, domain set-up and marshaling
succeed; the random source returns `rngRet` and the point multiplication
returns the pair (`token`, `status`). -/
def sampleEcdhEnv (hw : Int) (rngRet : Int) (token status : Nat) : EcdhEnv :=
  { mbedtls_hw_init := hw
    calloc := sampleAlloc
    mbedtls_ecp_setupDomainParams := fun _ => 0
    f_rng := fun _ len => (rngRet, List.replicate len 0x5A)
    mbedtls_mpi_write_binary := fun _ _ => 0
    retEccPointMult := status
    tokenEccPointMult := token
    pResultBytes := List.replicate 64 0x11 }

/-- A point with small coordinates. -/
def samplePoint : mbedtls_ecp_point := { X := 5, Y := 7, Z := 1 }

/-- Whether an event is a call of the caller's random source. -/
def isRngCall : Event → Bool
  | Event.f_rng _ _ _ => true
  | _ => false

/-- A CRT key with 16-bit primes: `N = P * Q` has 32 bits, `E = 65537`, and
`P`, `Q`, `DP`, `DQ`, `QP` all take two bytes. -/
def sampleRsaCtx : mbedtls_rsa_context :=
  { len := 4, N := 4292870399, E := 65537, P := 65521, Q := 65519,
    DP := 30833, DQ := 10345, QP := 32760 }

/-- A CRT key with 16-bit primes whose `DP = 73` takes a single byte:
`N = 47843 * 46349`, `E = 65537`. -/
def shortDpRsaCtx : mbedtls_rsa_context :=
  { len := 4, N := 2217475207, E := 65537, P := 47843, Q := 46349,
    DP := 73, DQ := 42853, QP := 21872 }

/-- A context whose declared length `5` is not the byte length `4` of `N`. -/
def wrongLenRsaCtx : mbedtls_rsa_context :=
  { len := 5, N := 4292870399, E := 65537, P := 65521, Q := 65519,
    DP := 30833, DQ := 10345, QP := 32760 }

/-- A context whose primes take two bytes and one byte: `N = 65521 * 251`. -/
def unequalPrimesRsaCtx : mbedtls_rsa_context :=
  { len := 3, N := 16445771, E := 65537, P := 65521, Q := 251,
    DP := 30833, DQ := 23, QP := 64999 }

/-- An RSA environment in which the context check, session initialisation,
memory copy, clean-up and destroy succeed (for the sample constants); bring-up
returns `hw`, the verify and sign primitives return the given pairs. -/
def sampleRsaEnv (hw : Int) (verifyToken verifyStatus signToken signStatus : Nat) : RsaEnv :=
  { rsa_check_context := fun _ _ _ => 0
    mbedtls_hw_init := hw
    si_status := 0x2E2E2E2E
    si_token := 0x1002
    verify_result := verifyStatus
    verify_token := verifyToken
    sign_result := signStatus
    sign_token := signToken
    pBufBytes := [1, 2, 3, 4]
    retMemCpy := 0
    tokenMemCpy := 0x1005
    cleanup_result := 0x2E2E2E2E
    cleanup_token := 0x1006
    destroy_result := 0x2E2E2E2E
    destroy_token := 0x1007 }

/-- The context field a marshaled operand is taken from (`0` for the
operands of the other file). -/
def operandValue (ctx : mbedtls_rsa_context) : Operand → mbedtls_mpi
  | Operand.N => ctx.N
  | Operand.E => ctx.E
  | Operand.P => ctx.P
  | Operand.Q => ctx.Q
  | Operand.QP => ctx.QP
  | Operand.DP => ctx.DP
  | Operand.DQ => ctx.DQ
  | _ => 0

/-- A byte range of the PKC RAM: first address and number of bytes. -/
structure Slot where
  start : Nat
  size : Nat
  deriving DecidableEq

/-- The address just past a slot. -/
def Slot.stop (s : Slot) : Nat := s.start + s.size

/-- The operand slots of `mbedtls_rsa_private` in their order in the PKC RAM:
`p`, `q`, `q^-1`, `dP`, `dQ` of `pqByteLength` bytes each, `e` and the result
buffer of `nByteLength` bytes each, at the pointers the function sets. -/
def rsa_private_slots (K : Consts) (nByteLength : Nat) : List Slot :=
  let pqByteLength := rsa_private_pqByteLength nByteLength
  let ptrs := rsa_private_ptrs K nByteLength
  [{ start := ptrs.pP, size := pqByteLength },
   { start := ptrs.pQ, size := pqByteLength },
   { start := ptrs.pQ_inv, size := pqByteLength },
   { start := ptrs.pDP, size := pqByteLength },
   { start := ptrs.pDQ, size := pqByteLength },
   { start := ptrs.pE, size := nByteLength },
   { start := ptrs.pBuf, size := nByteLength }]

/-- The operand slots of `mbedtls_rsa_public` in their order in the PKC RAM:
modulus, exponent and result buffer of `nByteLength` bytes each. -/
def rsa_public_slots (K : Consts) (nByteLength : Nat) : List Slot :=
  let ptrs := rsa_public_ptrs K nByteLength
  [{ start := ptrs.pMod, size := nByteLength },
   { start := ptrs.pExp, size := nByteLength },
   { start := ptrs.pBuf, size := nByteLength }]

/-- A layout as the specification wants it: the slots start at `base`, each
one begins where the one before ends (so they are in order and pairwise
disjoint), and all of them lie inside the `regionSize` bytes from `base`. -/
def LayoutOk (base regionSize : Nat) (slots : List Slot) : Prop :=
  (∀ s ∈ slots.head?, s.start = base) ∧
  List.Chain' (fun a b => a.stop = b.start) slots ∧
  List.Pairwise (fun a b => a.stop ≤ b.start) slots ∧
  (∀ s ∈ slots, base ≤ s.start ∧ s.stop ≤ base + regionSize) ∧
  (slots.map Slot.size).sum ≤ regionSize

/-- The seven buffers `mbedtls_ecp_free_ecdh` always releases when both of its
arguments are non-null. -/
def ownedBuffers (dp : mcuxClEcc_DomainParam_t) (pm : mcuxClEcc_PointMult_Param_t) :
    List Nat :=
  [dp.pA, dp.pB, dp.pP, dp.pG, dp.pN, pm.pScalar, pm.pResult]

/-- The non-null pointers of a list. -/
def nonNull (ptrs : List Nat) : List Nat := ptrs.filter (fun p => decide (p ≠ 0))

/-- Domain parameters over the sample pointers. -/
def sampleDomainParams : mcuxClEcc_DomainParam_t :=
  { pA := 0x1000, pB := 0x1100, pP := 0x1200, pG := 0x1300, pN := 0x1400, misc := 0 }

/-- Point-multiplication parameters of a base-point multiplication: `pPoint`
is the `pG` of the domain parameters. -/
def sampleBasePointParams : mcuxClEcc_PointMult_Param_t :=
  { curveParam := sampleDomainParams, pScalar := 0x1500, pPoint := 0x1300,
    pResult := 0x1700, optLen := 0 }

/-- Point-multiplication parameters with a point buffer of its own. -/
def sampleOwnPointParams : mcuxClEcc_PointMult_Param_t :=
  { curveParam := sampleDomainParams, pScalar := 0x1500, pPoint := 0x1600,
    pResult := 0x1700, optLen := 0 }

/-- The pointers returned by the `mbedtls_calloc` calls of a run, in order. -/
def allocatedPtrs (trace : List Event) : List Nat :=
  trace.filterMap (fun e =>
    match e with
    | Event.mbedtls_calloc _ ptr => some ptr
    | _ => none)

/-- The pointers passed to `mbedtls_free` in a run, in order. -/
def freedPtrs (trace : List Event) : List Nat :=
  trace.filterMap (fun e =>
    match e with
    | Event.mbedtls_free ptr => some ptr
    | _ => none)

/-- None of the error codes the two files return is `0`. -/
def ErrorCodesNonZero (K : Consts) : Prop :=
  K.MBEDTLS_ERR_ECP_BAD_INPUT_DATA ≠ 0 ∧
  K.MBEDTLS_ERR_ECP_RANDOM_FAILED ≠ 0 ∧
  K.MBEDTLS_ERR_ERROR_CORRUPTION_DETECTED ≠ 0 ∧
  K.MBEDTLS_ERR_CCM_HW_ACCEL_FAILED ≠ 0 ∧
  K.MBEDTLS_ERR_PLATFORM_HW_ACCEL_FAILED ≠ 0 ∧
  K.MBEDTLS_ERR_RSA_BAD_INPUT_DATA ≠ 0 ∧
  K.MBEDTLS_ERR_RSA_PUBLIC_FAILED ≠ 0 ∧
  K.MBEDTLS_ERR_RSA_PRIVATE_FAILED ≠ 0

/-- The sample RSA environment with every call succeeding, except that
`mcuxClSession_cleanup` returns the status `0` instead of
`MCUXCLSESSION_STATUS_OK`. -/
def cleanupFailRsaEnv : RsaEnv :=
  { sampleRsaEnv 0 0x1003 0xF3F3F3F3 0x1004 0xF2F2F2F2 with cleanup_result := 0 }

/-- The sample RSA environment with every call succeeding, except that the
token returned by `mcuxClMemory_copy` is `0` (its status is `0`, success). -/
def memcpyTokenMismatchRsaEnv : RsaEnv :=
  { sampleRsaEnv 0 0x1003 0xF3F3F3F3 0x1004 0xF2F2F2F2 with tokenMemCpy := 0 }

/-- An ECDH environment in which every call succeeds and whose random source
depends on its context argument: bytes `0xAA` for the caller's `p_rng`, bytes
`0x5A` for any other context. -/
def ctxSensitiveEcdhEnv : EcdhEnv :=
  { sampleEcdhEnv 0 0 0x1001 0xA5A5A5A5 with
    f_rng := fun ctx len =>
      match ctx with
      | RngArg.p_rng => (0, List.replicate len 0xAA)
      | RngArg.rng_ctx => (0, List.replicate len 0x5A) }

/-- Modelled from the spec: what the context validation `rsa_check_context`
(library code, not part of the two files) does with the declared modulus
length, in the spec's words "operand byte-length disagrees with
context-derived expected length": a context whose declared byte length is not
the byte length of `N` is rejected with a non-zero return, whatever the two
flags. -/
def RejectsLengthMismatch (env : RsaEnv) : Prop :=
  ∀ (ctx : mbedtls_rsa_context) (is_priv blinding_needed : Int),
    ctx.len ≠ (mbedtls_mpi_bitlen ctx.N + 7) / 8 →
      env.rsa_check_context ctx is_priv blinding_needed ≠ 0

/-- Modelled from the spec: a context validation that rejects exactly the
contexts whose declared byte length is not the byte length of `N`, with the
mbedTLS value of `MBEDTLS_ERR_RSA_BAD_INPUT_DATA`. -/
def rsa_check_context_len (ctx : mbedtls_rsa_context) (_ _ : Int) : Int :=
  if ctx.len ≠ (mbedtls_mpi_bitlen ctx.N + 7) / 8 then -0x4080 else 0

/-- The sample RSA environment with every call succeeding and the context
validation `rsa_check_context_len`. -/
def lengthCheckingRsaEnv : RsaEnv :=
  { sampleRsaEnv 0 0x1003 0xF3F3F3F3 0x1004 0xF2F2F2F2 with
    rsa_check_context := rsa_check_context_len }

/-! ## Theorems -/

/-- The halving loop on zero gives zero. -/
theorem bitlenAux_zero (fuel : Nat) : bitlenAux fuel 0 = 0 := by
  cases fuel <;> simp [bitlenAux]

/-- With fuel at least `n` the halving loop returns the bit length of `n`:
`n < 2 ^ b` and, for positive `n`, `2 ^ b ≤ 2 * n`. -/
theorem bitlenAux_spec (fuel : Nat) :
    ∀ n, n ≤ fuel → n < 2 ^ bitlenAux fuel n ∧ (0 < n → 2 ^ bitlenAux fuel n ≤ 2 * n) := by
  induction fuel with
  | zero =>
    intro n hn
    have h0 : n = 0 := by omega
    subst h0
    simp [bitlenAux]
  | succ k ih =>
    intro n hn
    by_cases h0 : n = 0
    · subst h0
      simp [bitlenAux]
    · have hhalf : n / 2 ≤ k := by omega
      obtain ⟨h1, h2⟩ := ih (n / 2) hhalf
      simp only [bitlenAux, h0, if_false, pow_succ]
      by_cases h3 : n / 2 = 0
      · have h4 : n = 1 := by omega
        subst h4
        simp [bitlenAux_zero]
      · have h5 := h2 (by omega)
        constructor
        · omega
        · intro _
          omega

/-- The bit length computed for an `mbedtls_mpi` brackets its magnitude. -/
theorem mbedtls_mpi_bitlen_spec (X : mbedtls_mpi) :
    X.natAbs < 2 ^ mbedtls_mpi_bitlen X ∧
      (0 < X.natAbs → 2 ^ mbedtls_mpi_bitlen X ≤ 2 * X.natAbs) :=
  bitlenAux_spec X.natAbs X.natAbs (le_refl _)

/-- The return code of `mbedtls_ecdh_gen_public` once the point
multiplication has been issued. -/
theorem gen_public_ret_issued (K : Consts) (env : EcdhEnv) (grp : mbedtls_ecp_group)
    (d : mbedtls_mpi) (Q : mbedtls_ecp_point)
    (hhw : env.mbedtls_hw_init = 0)
    (hsetup : env.mbedtls_ecp_setupDomainParams grp = 0)
    (hrng : (env.f_rng RngArg.rng_ctx (u32 ((grp.nbits + 7) / 8))).1 = 0) :
    (mbedtls_ecdh_gen_public K env grp d Q).ret =
      if K.MCUX_CSSL_FP_FUNCTION_CALLED FpFunction.mcuxClEcc_PointMult
          ≠ env.tokenEccPointMult then K.MBEDTLS_ERR_ERROR_CORRUPTION_DETECTED
      else if K.MCUXCLECC_STATUS_POINTMULT_INVALID_PARAMS = env.retEccPointMult then
        K.MBEDTLS_ERR_ECP_BAD_INPUT_DATA
      else if K.MCUXCLECC_STATUS_POINTMULT_RNG_ERROR = env.retEccPointMult then
        K.MBEDTLS_ERR_ECP_RANDOM_FAILED
      else if K.MCUXCLECC_STATUS_POINTMULT_OK ≠ env.retEccPointMult then
        K.MBEDTLS_ERR_ERROR_CORRUPTION_DETECTED
      else 0 := by
  simp only [mbedtls_ecdh_gen_public, hhw, hsetup, hrng, ne_eq, not_true_eq_false, if_false]
  split_ifs <;> rfl

/-- The return code of `mbedtls_ecdh_compute_shared` once the point
multiplication has been issued. -/
theorem compute_shared_ret_issued (K : Consts) (env : EcdhEnv) (grp : mbedtls_ecp_group)
    (z : mbedtls_mpi) (Q : mbedtls_ecp_point) (d : mbedtls_mpi)
    (hhw : env.mbedtls_hw_init = 0)
    (hsetup : env.mbedtls_ecp_setupDomainParams grp = 0)
    (hX : env.mbedtls_mpi_write_binary Q.X (u32 ((grp.pbits + 7) / 8)) = 0)
    (hY : env.mbedtls_mpi_write_binary Q.Y (u32 ((grp.pbits + 7) / 8)) = 0)
    (hd : env.mbedtls_mpi_write_binary d (u32 ((grp.nbits + 7) / 8)) = 0) :
    (mbedtls_ecdh_compute_shared K env grp z Q d).ret =
      if K.MCUX_CSSL_FP_FUNCTION_CALLED FpFunction.mcuxClEcc_PointMult
          ≠ env.tokenEccPointMult then K.MBEDTLS_ERR_ERROR_CORRUPTION_DETECTED
      else if K.MCUXCLECC_STATUS_POINTMULT_INVALID_PARAMS = env.retEccPointMult then
        K.MBEDTLS_ERR_ECP_BAD_INPUT_DATA
      else if K.MCUXCLECC_STATUS_POINTMULT_RNG_ERROR = env.retEccPointMult then
        K.MBEDTLS_ERR_ECP_RANDOM_FAILED
      else if K.MCUXCLECC_STATUS_POINTMULT_OK ≠ env.retEccPointMult then
        K.MBEDTLS_ERR_ERROR_CORRUPTION_DETECTED
      else 0 := by
  simp only [mbedtls_ecdh_compute_shared, hhw, hsetup, hX, hY, hd, ne_eq, not_true_eq_false,
    if_false]
  split_ifs <;> rfl

/-- The if-chain of the two entry points realises the table of the
specification when the three status words are pairwise different. -/
theorem chain_follows_table (K : Consts) (token status : Nat)
    (hK : PointMultStatusDistinct K) :
    FollowsPointMultTable K token status
      (if K.MCUX_CSSL_FP_FUNCTION_CALLED FpFunction.mcuxClEcc_PointMult ≠ token then
        K.MBEDTLS_ERR_ERROR_CORRUPTION_DETECTED
      else if K.MCUXCLECC_STATUS_POINTMULT_INVALID_PARAMS = status then
        K.MBEDTLS_ERR_ECP_BAD_INPUT_DATA
      else if K.MCUXCLECC_STATUS_POINTMULT_RNG_ERROR = status then
        K.MBEDTLS_ERR_ECP_RANDOM_FAILED
      else if K.MCUXCLECC_STATUS_POINTMULT_OK ≠ status then
        K.MBEDTLS_ERR_ERROR_CORRUPTION_DETECTED
      else 0) := by
  obtain ⟨h1, h2, h3⟩ := hK
  refine ⟨?_, ?_⟩
  · intro ht
    rw [if_pos (fun h => ht h.symm)]
  · intro ht
    subst ht
    refine ⟨?_, ?_, ?_, ?_⟩
    · intro hs
      subst hs
      simp
    · intro hs
      subst hs
      simp [h3]
    · intro hs
      subst hs
      simp [h1.symm, h2.symm]
    · intro a b c
      simp [Ne.symm a, Ne.symm b, Ne.symm c]

/-- C1: in `mbedtls_ecdh_gen_public` and `mbedtls_ecdh_compute_shared`, once
the point multiplication has been issued (bring-up, domain set-up, random
source and marshaling succeeded), the return code follows the table of the
specification for the pair (token, status) - a token mismatch gives
`MBEDTLS_ERR_ERROR_CORRUPTION_DETECTED` for every status, a matching token
gives `MBEDTLS_ERR_ECP_BAD_INPUT_DATA`, `MBEDTLS_ERR_ECP_RANDOM_FAILED`, `0`
or `MBEDTLS_ERR_ERROR_CORRUPTION_DETECTED` - and the two entry points return
the same code. -/
theorem C1_point_mult_token_status_table (K : Consts) (env : EcdhEnv)
    (grp : mbedtls_ecp_group) (d0 : mbedtls_mpi) (Q0 : mbedtls_ecp_point)
    (z0 : mbedtls_mpi) (Q : mbedtls_ecp_point) (d : mbedtls_mpi)
    (hK : PointMultStatusDistinct K)
    (hhw : env.mbedtls_hw_init = 0)
    (hsetup : env.mbedtls_ecp_setupDomainParams grp = 0)
    (hrng : (env.f_rng RngArg.rng_ctx (u32 ((grp.nbits + 7) / 8))).1 = 0)
    (hX : env.mbedtls_mpi_write_binary Q.X (u32 ((grp.pbits + 7) / 8)) = 0)
    (hY : env.mbedtls_mpi_write_binary Q.Y (u32 ((grp.pbits + 7) / 8)) = 0)
    (hd : env.mbedtls_mpi_write_binary d (u32 ((grp.nbits + 7) / 8)) = 0) :
    FollowsPointMultTable K env.tokenEccPointMult env.retEccPointMult
        (mbedtls_ecdh_gen_public K env grp d0 Q0).ret ∧
      FollowsPointMultTable K env.tokenEccPointMult env.retEccPointMult
        (mbedtls_ecdh_compute_shared K env grp z0 Q d).ret ∧
      (mbedtls_ecdh_gen_public K env grp d0 Q0).ret =
        (mbedtls_ecdh_compute_shared K env grp z0 Q d).ret := by
  have hg := gen_public_ret_issued K env grp d0 Q0 hhw hsetup hrng
  have hc := compute_shared_ret_issued K env grp z0 Q d hhw hsetup hX hY hd
  refine ⟨?_, ?_, ?_⟩
  · rw [hg]
    exact chain_follows_table K _ _ hK
  · rw [hc]
    exact chain_follows_table K _ _ hK
  · rw [hg, hc]

/-- Witness for C1: with the sample constants, a matching token and the status
`MCUXCLECC_STATUS_POINTMULT_RNG_ERROR`, both entry points follow the table
(and return `MBEDTLS_ERR_ECP_RANDOM_FAILED`). -/
theorem C1_point_mult_token_status_table_witness :
    PointMultStatusDistinct sampleConsts ∧
      (sampleEcdhEnv 0 0 0x1001 0xA5A52727).mbedtls_hw_init = 0 ∧
      (mbedtls_ecdh_gen_public sampleConsts (sampleEcdhEnv 0 0 0x1001 0xA5A52727)
        sampleGrp 0 samplePoint).ret = -0x4D00 ∧
      FollowsPointMultTable sampleConsts 0x1001 0xA5A52727
        (mbedtls_ecdh_gen_public sampleConsts (sampleEcdhEnv 0 0 0x1001 0xA5A52727)
          sampleGrp 0 samplePoint).ret ∧
      FollowsPointMultTable sampleConsts 0x1001 0xA5A52727
        (mbedtls_ecdh_compute_shared sampleConsts (sampleEcdhEnv 0 0 0x1001 0xA5A52727)
          sampleGrp 0 samplePoint 3).ret ∧
      (mbedtls_ecdh_gen_public sampleConsts (sampleEcdhEnv 0 0 0x1001 0xA5A52727)
          sampleGrp 0 samplePoint).ret =
        (mbedtls_ecdh_compute_shared sampleConsts (sampleEcdhEnv 0 0 0x1001 0xA5A52727)
          sampleGrp 0 samplePoint 3).ret :=
  ⟨by simp [PointMultStatusDistinct, sampleConsts], rfl, by decide,
    C1_point_mult_token_status_table sampleConsts (sampleEcdhEnv 0 0 0x1001 0xA5A52727)
      sampleGrp 0 samplePoint 0 samplePoint 3
      (by simp [PointMultStatusDistinct, sampleConsts]) rfl rfl rfl rfl rfl rfl⟩

/-- C2 (the code at the failing input): in `mbedtls_rsa_private`, with one and
the same mismatching sign token, the status `MCUXCLRSA_STATUS_INVALID_INPUT`
gives `MBEDTLS_ERR_RSA_BAD_INPUT_DATA` and the status `0` gives
`MBEDTLS_ERR_RSA_PRIVATE_FAILED`: the status is inspected although the token
does not match.  `mbedtls_rsa_public` returns `MBEDTLS_ERR_RSA_PUBLIC_FAILED`
for both statuses. -/
theorem C2_rsa_private_status_inspected_on_token_mismatch :
    (0 : Nat) ≠ sampleConsts.MCUX_CSSL_FP_FUNCTION_CALLED FpFunction.mcuxClRsa_sign ∧
      (0 : Nat) ≠ sampleConsts.MCUX_CSSL_FP_FUNCTION_CALLED FpFunction.mcuxClRsa_verify ∧
      (mbedtls_rsa_private sampleConsts (sampleRsaEnv 0 0 0xF8F8F8F8 0 0xF8F8F8F8)
        sampleRsaCtx [0, 0, 0, 0]).ret = -0x4080 ∧
      (mbedtls_rsa_private sampleConsts (sampleRsaEnv 0 0 0 0 0)
        sampleRsaCtx [0, 0, 0, 0]).ret = -0x4300 ∧
      (mbedtls_rsa_public sampleConsts (sampleRsaEnv 0 0 0xF8F8F8F8 0 0xF8F8F8F8)
        sampleRsaCtx [0, 0, 0, 0]).ret = -0x4280 ∧
      (mbedtls_rsa_public sampleConsts (sampleRsaEnv 0 0 0 0 0)
        sampleRsaCtx [0, 0, 0, 0]).ret = -0x4280 := by
  decide

/-- C3: `mbedtls_ecdh_can_do` returns `0` exactly for the identifiers
`MBEDTLS_ECP_DP_CURVE25519` and `MBEDTLS_ECP_DP_CURVE448`, and `1` exactly for
every other identifier. -/
theorem C3_can_do_excludes_two_curves (K : Consts) (gid : Nat) :
    (mbedtls_ecdh_can_do K gid = 0 ↔
        (gid = K.MBEDTLS_ECP_DP_CURVE25519 ∨ gid = K.MBEDTLS_ECP_DP_CURVE448)) ∧
      (mbedtls_ecdh_can_do K gid = 1 ↔
        ¬ (gid = K.MBEDTLS_ECP_DP_CURVE25519 ∨ gid = K.MBEDTLS_ECP_DP_CURVE448)) := by
  unfold mbedtls_ecdh_can_do
  by_cases h : K.MBEDTLS_ECP_DP_CURVE25519 = gid ∨ K.MBEDTLS_ECP_DP_CURVE448 = gid
  · have h2 : gid = K.MBEDTLS_ECP_DP_CURVE25519 ∨ gid = K.MBEDTLS_ECP_DP_CURVE448 :=
      h.imp Eq.symm Eq.symm
    simp [h, h2]
  · have h2 : ¬ (gid = K.MBEDTLS_ECP_DP_CURVE25519 ∨ gid = K.MBEDTLS_ECP_DP_CURVE448) :=
      fun h3 => h (h3.imp Eq.symm Eq.symm)
    simp [h, h2]

/-- C4 (counterexample): with the mbedTLS values of the error codes and a
failing `mbedtls_hw_init`, the two ECDH entry points return
`MBEDTLS_ERR_CCM_HW_ACCEL_FAILED = -0x0011` and the two RSA entry points
return `MBEDTLS_ERR_PLATFORM_HW_ACCEL_FAILED = -0x0070`: not one and the same
code. -/
theorem C4_hw_init_failure_codes_differ :
    (mbedtls_ecdh_gen_public sampleConsts (sampleEcdhEnv 1 0 0x1001 0xA5A5A5A5)
        sampleGrp 0 samplePoint).ret = -0x0011 ∧
      (mbedtls_ecdh_compute_shared sampleConsts (sampleEcdhEnv 1 0 0x1001 0xA5A5A5A5)
        sampleGrp 0 samplePoint 3).ret = -0x0011 ∧
      (mbedtls_rsa_public sampleConsts (sampleRsaEnv 1 0x1003 0xF3F3F3F3 0x1004 0xF2F2F2F2)
        sampleRsaCtx [0, 0, 0, 0]).ret = -0x0070 ∧
      (mbedtls_rsa_private sampleConsts (sampleRsaEnv 1 0x1003 0xF3F3F3F3 0x1004 0xF2F2F2F2)
        sampleRsaCtx [0, 0, 0, 0]).ret = -0x0070 ∧
      (mbedtls_ecdh_gen_public sampleConsts (sampleEcdhEnv 1 0 0x1001 0xA5A5A5A5)
          sampleGrp 0 samplePoint).ret ≠
        (mbedtls_rsa_public sampleConsts (sampleRsaEnv 1 0x1003 0xF3F3F3F3 0x1004 0xF2F2F2F2)
          sampleRsaCtx [0, 0, 0, 0]).ret := by
  decide

/-- C4 (amended): when `mbedtls_hw_init` returns non-zero, the two ECDH entry
points return `MBEDTLS_ERR_CCM_HW_ACCEL_FAILED` and the two RSA entry points,
on a context that `rsa_check_context` accepts, return
`MBEDTLS_ERR_PLATFORM_HW_ACCEL_FAILED`; in all four the only call made is
`mbedtls_hw_init` (no session, no allocation, no marshaling, no primitive) and
the outputs are untouched. -/
theorem C4_hw_init_failure (K : Consts) (envE : EcdhEnv) (envR : RsaEnv)
    (grp : mbedtls_ecp_group) (d0 : mbedtls_mpi) (Q0 : mbedtls_ecp_point)
    (z0 : mbedtls_mpi) (Q : mbedtls_ecp_point) (d : mbedtls_mpi)
    (ctx : mbedtls_rsa_context) (output : List Nat)
    (hE : envE.mbedtls_hw_init ≠ 0) (hR : envR.mbedtls_hw_init ≠ 0)
    (hpub : envR.rsa_check_context ctx 0 0 = 0)
    (hpriv : envR.rsa_check_context ctx 1 1 = 0) :
    mbedtls_ecdh_gen_public K envE grp d0 Q0 =
        { ret := K.MBEDTLS_ERR_CCM_HW_ACCEL_FAILED, d := d0, Q := Q0,
          trace := [Event.mbedtls_hw_init] } ∧
      mbedtls_ecdh_compute_shared K envE grp z0 Q d =
        { ret := K.MBEDTLS_ERR_CCM_HW_ACCEL_FAILED, z := z0,
          trace := [Event.mbedtls_hw_init] } ∧
      mbedtls_rsa_public K envR ctx output =
        { ret := K.MBEDTLS_ERR_PLATFORM_HW_ACCEL_FAILED, output := output, rsa_key := none,
          trace := [Event.mbedtls_hw_init] } ∧
      mbedtls_rsa_private K envR ctx output =
        { ret := K.MBEDTLS_ERR_PLATFORM_HW_ACCEL_FAILED, output := output, rsa_key := none,
          trace := [Event.mbedtls_hw_init] } := by
  refine ⟨?_, ?_, ?_, ?_⟩
  · simp [mbedtls_ecdh_gen_public, hE]
  · simp [mbedtls_ecdh_compute_shared, hE]
  · simp [mbedtls_rsa_public, hR, hpub]
  · simp [mbedtls_rsa_private, hR, hpriv]

/-- Witness for C4 (amended): the sample environments with `mbedtls_hw_init`
returning `1`. -/
theorem C4_hw_init_failure_witness :
    (sampleEcdhEnv 1 0 0x1001 0xA5A5A5A5).mbedtls_hw_init ≠ 0 ∧
      (sampleRsaEnv 1 0x1003 0xF3F3F3F3 0x1004 0xF2F2F2F2).mbedtls_hw_init ≠ 0 ∧
      mbedtls_ecdh_gen_public sampleConsts (sampleEcdhEnv 1 0 0x1001 0xA5A5A5A5)
          sampleGrp 0 samplePoint =
        { ret := -0x0011, d := 0, Q := samplePoint, trace := [Event.mbedtls_hw_init] } ∧
      mbedtls_ecdh_compute_shared sampleConsts (sampleEcdhEnv 1 0 0x1001 0xA5A5A5A5)
          sampleGrp 0 samplePoint 3 =
        { ret := -0x0011, z := 0, trace := [Event.mbedtls_hw_init] } ∧
      mbedtls_rsa_public sampleConsts (sampleRsaEnv 1 0x1003 0xF3F3F3F3 0x1004 0xF2F2F2F2)
          sampleRsaCtx [0, 0, 0, 0] =
        { ret := -0x0070, output := [0, 0, 0, 0], rsa_key := none,
          trace := [Event.mbedtls_hw_init] } ∧
      mbedtls_rsa_private sampleConsts (sampleRsaEnv 1 0x1003 0xF3F3F3F3 0x1004 0xF2F2F2F2)
          sampleRsaCtx [0, 0, 0, 0] =
        { ret := -0x0070, output := [0, 0, 0, 0], rsa_key := none,
          trace := [Event.mbedtls_hw_init] } :=
  ⟨by decide, by decide,
    C4_hw_init_failure sampleConsts (sampleEcdhEnv 1 0 0x1001 0xA5A5A5A5)
      (sampleRsaEnv 1 0x1003 0xF3F3F3F3 0x1004 0xF2F2F2F2) sampleGrp 0 samplePoint 0
      samplePoint 3 sampleRsaCtx [0, 0, 0, 0] (by decide) (by decide) rfl rfl⟩

/-- C5 (counterexample): with the mbedTLS values of the error codes, a random
source that returns `1` makes `mbedtls_ecdh_gen_public` return
`MBEDTLS_ERR_ERROR_CORRUPTION_DETECTED = -0x006E`, which is not
`MBEDTLS_ERR_ECP_RANDOM_FAILED = -0x4D00`. -/
theorem C5_rng_failure_not_random_failed :
    ((sampleEcdhEnv 0 1 0x1001 0xA5A5A5A5).f_rng RngArg.rng_ctx 32).1 ≠ 0 ∧
      (mbedtls_ecdh_gen_public sampleConsts (sampleEcdhEnv 0 1 0x1001 0xA5A5A5A5)
        sampleGrp 0 samplePoint).ret = -0x006E ∧
      (mbedtls_ecdh_gen_public sampleConsts (sampleEcdhEnv 0 1 0x1001 0xA5A5A5A5)
        sampleGrp 0 samplePoint).ret ≠ sampleConsts.MBEDTLS_ERR_ECP_RANDOM_FAILED := by
  decide

/-- C5 (amended): in `mbedtls_ecdh_gen_public`, whenever the random source is
reached (bring-up and domain set-up succeeded) and returns a non-zero code,
the operation returns `MBEDTLS_ERR_ERROR_CORRUPTION_DETECTED`, the random
source has been called exactly once, and no point multiplication is issued. -/
theorem C5_rng_failure (K : Consts) (env : EcdhEnv) (grp : mbedtls_ecp_group)
    (d : mbedtls_mpi) (Q : mbedtls_ecp_point)
    (hhw : env.mbedtls_hw_init = 0)
    (hsetup : env.mbedtls_ecp_setupDomainParams grp = 0)
    (hrng : (env.f_rng RngArg.rng_ctx (u32 ((grp.nbits + 7) / 8))).1 ≠ 0) :
    (mbedtls_ecdh_gen_public K env grp d Q).ret = K.MBEDTLS_ERR_ERROR_CORRUPTION_DETECTED ∧
      (mbedtls_ecdh_gen_public K env grp d Q).trace.countP isRngCall = 1 ∧
      Event.mcuxClEcc_PointMult ∉ (mbedtls_ecdh_gen_public K env grp d Q).trace := by
  simp [mbedtls_ecdh_gen_public, hhw, hsetup, hrng, isRngCall, List.countP_cons]

/-- Witness for C5 (amended): the sample environment with a random source
that returns `1`. -/
theorem C5_rng_failure_witness :
    ((sampleEcdhEnv 0 1 0x1001 0xA5A5A5A5).f_rng RngArg.rng_ctx
        (u32 ((sampleGrp.nbits + 7) / 8))).1 ≠ 0 ∧
      (mbedtls_ecdh_gen_public sampleConsts (sampleEcdhEnv 0 1 0x1001 0xA5A5A5A5)
        sampleGrp 0 samplePoint).ret = sampleConsts.MBEDTLS_ERR_ERROR_CORRUPTION_DETECTED ∧
      (mbedtls_ecdh_gen_public sampleConsts (sampleEcdhEnv 0 1 0x1001 0xA5A5A5A5)
        sampleGrp 0 samplePoint).trace.countP isRngCall = 1 ∧
      Event.mcuxClEcc_PointMult ∉
        (mbedtls_ecdh_gen_public sampleConsts (sampleEcdhEnv 0 1 0x1001 0xA5A5A5A5)
          sampleGrp 0 samplePoint).trace :=
  ⟨by decide,
    C5_rng_failure sampleConsts (sampleEcdhEnv 0 1 0x1001 0xA5A5A5A5) sampleGrp 0 samplePoint
      rfl rfl (by decide)⟩

/-- What the length comparison inside `mbedtls_rsa_public` does with a context
whose `ctx->len` differs from `ceil(bitlen(N)/8)`, whatever `rsa_check_context`
returns: if `rsa_check_context` rejects the context the call returns
`MBEDTLS_ERR_RSA_BAD_INPUT_DATA` with no call made at all; if it accepts the
context and bring-up and session initialisation succeed, the call returns
`MBEDTLS_ERR_RSA_BAD_INPUT_DATA` after `mbedtls_hw_init` and
`mcuxClSession_init` and nothing else; in every case no operand is marshaled
and `mcuxClRsa_verify` is not called. -/
theorem rsa_public_length_mismatch_paths (K : Consts) (env : RsaEnv)
    (ctx : mbedtls_rsa_context) (output : List Nat)
    (hlen : ctx.len < 2 ^ 32)
    (hne : ctx.len ≠ (mbedtls_mpi_bitlen ctx.N + 7) / 8) :
    (env.rsa_check_context ctx 0 0 ≠ 0 →
        mbedtls_rsa_public K env ctx output =
          { ret := K.MBEDTLS_ERR_RSA_BAD_INPUT_DATA, output := output, rsa_key := none,
            trace := [] }) ∧
      (env.rsa_check_context ctx 0 0 = 0 → env.mbedtls_hw_init = 0 →
        K.MCUX_CSSL_FP_FUNCTION_CALLED FpFunction.mcuxClSession_init = env.si_token →
        K.MCUXCLSESSION_STATUS_OK = env.si_status →
        mbedtls_rsa_public K env ctx output =
          { ret := K.MBEDTLS_ERR_RSA_BAD_INPUT_DATA, output := output, rsa_key := none,
            trace := [Event.mbedtls_hw_init, Event.mcuxClSession_init] }) ∧
      (∀ X buf buflen, Event.mbedtls_mpi_write_binary X buf buflen ∉
        (mbedtls_rsa_public K env ctx output).trace) ∧
      Event.mcuxClRsa_verify ∉ (mbedtls_rsa_public K env ctx output).trace := by
  have hu : u32 ctx.len = ctx.len := Nat.mod_eq_of_lt hlen
  refine ⟨?_, ?_, ?_, ?_⟩
  · intro hc
    simp [mbedtls_rsa_public, hc]
  · intro hc hhw ht hs
    simp [mbedtls_rsa_public, hc, hhw, ht, hs, hu, hne]
  · intro X buf buflen
    simp only [mbedtls_rsa_public, hu]
    split_ifs <;> simp_all
  · simp only [mbedtls_rsa_public, hu]
    split_ifs <;> simp_all

/-- The validation `rsa_check_context_len` rejects every context whose
declared length is not the byte length of `N`. -/
theorem lengthCheckingRsaEnv_rejects : RejectsLengthMismatch lengthCheckingRsaEnv := by
  intro ctx is_priv blinding_needed hne
  simp [lengthCheckingRsaEnv, rsa_check_context_len, hne]

/-- C6: in `mbedtls_rsa_public`, with a context validation that rejects a
declared length different from the byte length of `N`, every context whose
`ctx->len` differs from `ceil(bitlen(N)/8)` makes the call return
`MBEDTLS_ERR_RSA_BAD_INPUT_DATA` from its first statement: the output is
untouched and no call has been made before the rejection - no
`mbedtls_hw_init`, no `mcuxClSession_init`, no `mcuxClRsa_verify`. -/
theorem C6_rsa_public_rejects_length_mismatch (K : Consts) (env : RsaEnv)
    (ctx : mbedtls_rsa_context) (output : List Nat)
    (hchk : RejectsLengthMismatch env)
    (hne : ctx.len ≠ (mbedtls_mpi_bitlen ctx.N + 7) / 8) :
    mbedtls_rsa_public K env ctx output =
        { ret := K.MBEDTLS_ERR_RSA_BAD_INPUT_DATA, output := output, rsa_key := none,
          trace := [] } ∧
      Event.mbedtls_hw_init ∉ (mbedtls_rsa_public K env ctx output).trace ∧
      Event.mcuxClSession_init ∉ (mbedtls_rsa_public K env ctx output).trace ∧
      Event.mcuxClRsa_verify ∉ (mbedtls_rsa_public K env ctx output).trace := by
  have hc : env.rsa_check_context ctx 0 0 ≠ 0 := hchk ctx 0 0 hne
  have hrun : mbedtls_rsa_public K env ctx output =
      { ret := K.MBEDTLS_ERR_RSA_BAD_INPUT_DATA, output := output, rsa_key := none,
        trace := [] } := by
    simp [mbedtls_rsa_public, hc]
  refine ⟨hrun, ?_, ?_, ?_⟩ <;> simp [hrun]

/-- Witness for C6: the context with declared length `5` and a four-byte
modulus, under the validation `rsa_check_context_len`; the call returns
`MBEDTLS_ERR_RSA_BAD_INPUT_DATA = -0x4080` with an empty trace. -/
theorem C6_rsa_public_rejects_length_mismatch_witness :
    RejectsLengthMismatch lengthCheckingRsaEnv ∧
      wrongLenRsaCtx.len ≠ (mbedtls_mpi_bitlen wrongLenRsaCtx.N + 7) / 8 ∧
      mbedtls_rsa_public sampleConsts lengthCheckingRsaEnv wrongLenRsaCtx [0, 0, 0, 0, 0] =
        { ret := -0x4080, output := [0, 0, 0, 0, 0], rsa_key := none, trace := [] } ∧
      Event.mcuxClSession_init ∉
        (mbedtls_rsa_public sampleConsts lengthCheckingRsaEnv wrongLenRsaCtx
          [0, 0, 0, 0, 0]).trace :=
  have h := C6_rsa_public_rejects_length_mismatch sampleConsts lengthCheckingRsaEnv
    wrongLenRsaCtx [0, 0, 0, 0, 0] lengthCheckingRsaEnv_rejects (by decide)
  ⟨lengthCheckingRsaEnv_rejects, by decide, h.1, h.2.2.1⟩

/-- C7: in `mbedtls_rsa_private`, when the byte lengths of `P` and `Q` differ
and bring-up and session initialisation succeed, the call returns
`MBEDTLS_ERR_RSA_BAD_INPUT_DATA` and `mcuxClRsa_sign` is not called; unequal
lengths mean that one of them differs from `pqByteLength`. -/
theorem C7_rsa_private_unequal_primes (K : Consts) (env : RsaEnv)
    (ctx : mbedtls_rsa_context) (output : List Nat)
    (hpq : (mbedtls_mpi_bitlen ctx.P + 7) / 8 ≠ (mbedtls_mpi_bitlen ctx.Q + 7) / 8)
    (hhw : env.mbedtls_hw_init = 0)
    (hsit : K.MCUX_CSSL_FP_FUNCTION_CALLED FpFunction.mcuxClSession_init = env.si_token)
    (hsis : K.MCUXCLSESSION_STATUS_OK = env.si_status) :
    (mbedtls_rsa_private K env ctx output).ret = K.MBEDTLS_ERR_RSA_BAD_INPUT_DATA ∧
      Event.mcuxClRsa_sign ∉ (mbedtls_rsa_private K env ctx output).trace ∧
      (rsa_private_pqByteLength (u32 ctx.len) ≠ (mbedtls_mpi_bitlen ctx.P + 7) / 8 ∨
        rsa_private_pqByteLength (u32 ctx.len) ≠ (mbedtls_mpi_bitlen ctx.Q + 7) / 8) := by
  have hor : rsa_private_pqByteLength (u32 ctx.len) ≠ (mbedtls_mpi_bitlen ctx.P + 7) / 8 ∨
      rsa_private_pqByteLength (u32 ctx.len) ≠ (mbedtls_mpi_bitlen ctx.Q + 7) / 8 := by
    by_cases h : rsa_private_pqByteLength (u32 ctx.len) = (mbedtls_mpi_bitlen ctx.P + 7) / 8
    · right
      rw [h]
      exact hpq
    · left
      exact h
  refine ⟨?_, ?_, hor⟩
  · by_cases hc : env.rsa_check_context ctx 1 1 = 0
    · simp [mbedtls_rsa_private, hc, hhw, hsit, hsis, hor]
    · simp [mbedtls_rsa_private, hc]
  · by_cases hc : env.rsa_check_context ctx 1 1 = 0
    · simp [mbedtls_rsa_private, hc, hhw, hsit, hsis, hor]
    · simp [mbedtls_rsa_private, hc]

/-- Witness for C7: a context with a two-byte `P` and a one-byte `Q`. -/
theorem C7_rsa_private_unequal_primes_witness :
    (mbedtls_mpi_bitlen unequalPrimesRsaCtx.P + 7) / 8 ≠
        (mbedtls_mpi_bitlen unequalPrimesRsaCtx.Q + 7) / 8 ∧
      (mbedtls_rsa_private sampleConsts (sampleRsaEnv 0 0x1003 0xF3F3F3F3 0x1004 0xF2F2F2F2)
        unequalPrimesRsaCtx [0, 0, 0]).ret = sampleConsts.MBEDTLS_ERR_RSA_BAD_INPUT_DATA ∧
      Event.mcuxClRsa_sign ∉
        (mbedtls_rsa_private sampleConsts (sampleRsaEnv 0 0x1003 0xF3F3F3F3 0x1004 0xF2F2F2F2)
          unequalPrimesRsaCtx [0, 0, 0]).trace :=
  have h := C7_rsa_private_unequal_primes sampleConsts
    (sampleRsaEnv 0 0x1003 0xF3F3F3F3 0x1004 0xF2F2F2F2) unequalPrimesRsaCtx [0, 0, 0]
    (by decide) rfl rfl rfl
  ⟨by decide, h.1, h.2.1⟩

/-- C8 (counterexample): on a CRT key with `pqByteLength = 2` whose `DP = 73`
takes one byte, `mbedtls_rsa_private` writes `DP` with length `1` at its
two-byte slot and returns `0`, not `MBEDTLS_ERR_RSA_BAD_INPUT_DATA`. -/
theorem C8_short_dp_is_marshaled :
    rsa_private_pqByteLength (u32 shortDpRsaCtx.len) = 2 ∧
      (mbedtls_mpi_bitlen shortDpRsaCtx.DP + 7) / 8 = 1 ∧
      (mbedtls_rsa_private sampleConsts (sampleRsaEnv 0 0x1003 0xF3F3F3F3 0x1004 0xF2F2F2F2)
        shortDpRsaCtx [0, 0, 0, 0]).ret = 0 ∧
      Event.mbedtls_mpi_write_binary Operand.DP
          (rsa_private_ptrs sampleConsts (u32 shortDpRsaCtx.len)).pDP 1 ∈
        (mbedtls_rsa_private sampleConsts (sampleRsaEnv 0 0x1003 0xF3F3F3F3 0x1004 0xF2F2F2F2)
          shortDpRsaCtx [0, 0, 0, 0]).trace ∧
      Event.mcuxClRsa_sign ∈
        (mbedtls_rsa_private sampleConsts (sampleRsaEnv 0 0x1003 0xF3F3F3F3 0x1004 0xF2F2F2F2)
          shortDpRsaCtx [0, 0, 0, 0]).trace := by
  decide

/-- On the write path of `mbedtls_rsa_private`, once `P` and `Q` have passed the
length check, all six operands are written at their pointers with their own
byte lengths, and the key stored in the context records these lengths (as
`uint32_t`) in its six entries, on every continuation of the run. -/
theorem rsa_private_marshals_all_operands (K : Consts) (env : RsaEnv)
    (ctx : mbedtls_rsa_context) (output : List Nat)
    (hc : env.rsa_check_context ctx 1 1 = 0)
    (hhw : env.mbedtls_hw_init = 0)
    (hsit : K.MCUX_CSSL_FP_FUNCTION_CALLED FpFunction.mcuxClSession_init = env.si_token)
    (hsis : K.MCUXCLSESSION_STATUS_OK = env.si_status)
    (hP : rsa_private_pqByteLength (u32 ctx.len) = (mbedtls_mpi_bitlen ctx.P + 7) / 8)
    (hQ : rsa_private_pqByteLength (u32 ctx.len) = (mbedtls_mpi_bitlen ctx.Q + 7) / 8) :
    (Event.mbedtls_mpi_write_binary Operand.P (rsa_private_ptrs K (u32 ctx.len)).pP
          ((mbedtls_mpi_bitlen ctx.P + 7) / 8) ∈ (mbedtls_rsa_private K env ctx output).trace ∧
        Event.mbedtls_mpi_write_binary Operand.Q (rsa_private_ptrs K (u32 ctx.len)).pQ
          ((mbedtls_mpi_bitlen ctx.Q + 7) / 8) ∈ (mbedtls_rsa_private K env ctx output).trace ∧
        Event.mbedtls_mpi_write_binary Operand.QP (rsa_private_ptrs K (u32 ctx.len)).pQ_inv
          ((mbedtls_mpi_bitlen ctx.QP + 7) / 8) ∈ (mbedtls_rsa_private K env ctx output).trace ∧
        Event.mbedtls_mpi_write_binary Operand.DP (rsa_private_ptrs K (u32 ctx.len)).pDP
          ((mbedtls_mpi_bitlen ctx.DP + 7) / 8) ∈ (mbedtls_rsa_private K env ctx output).trace ∧
        Event.mbedtls_mpi_write_binary Operand.DQ (rsa_private_ptrs K (u32 ctx.len)).pDQ
          ((mbedtls_mpi_bitlen ctx.DQ + 7) / 8) ∈ (mbedtls_rsa_private K env ctx output).trace ∧
        Event.mbedtls_mpi_write_binary Operand.E (rsa_private_ptrs K (u32 ctx.len)).pE
          ((mbedtls_mpi_bitlen ctx.E + 7) / 8) ∈ (mbedtls_rsa_private K env ctx output).trace) ∧
      (mbedtls_rsa_private K env ctx output).rsa_key =
        some
          { keytype := KeyType.MCUXCLRSA_KEY_PRIVATECRT,
            pMod1 := some { pKeyEntryData := (rsa_private_ptrs K (u32 ctx.len)).pP,
                            keyEntryLength := u32 ((mbedtls_mpi_bitlen ctx.P + 7) / 8) },
            pMod2 := some { pKeyEntryData := (rsa_private_ptrs K (u32 ctx.len)).pQ,
                            keyEntryLength := u32 ((mbedtls_mpi_bitlen ctx.Q + 7) / 8) },
            pQInv := some { pKeyEntryData := (rsa_private_ptrs K (u32 ctx.len)).pQ_inv,
                            keyEntryLength := u32 ((mbedtls_mpi_bitlen ctx.QP + 7) / 8) },
            pExp1 := some { pKeyEntryData := (rsa_private_ptrs K (u32 ctx.len)).pDP,
                            keyEntryLength := u32 ((mbedtls_mpi_bitlen ctx.DP + 7) / 8) },
            pExp2 := some { pKeyEntryData := (rsa_private_ptrs K (u32 ctx.len)).pDQ,
                            keyEntryLength := u32 ((mbedtls_mpi_bitlen ctx.DQ + 7) / 8) },
            pExp3 := some { pKeyEntryData := (rsa_private_ptrs K (u32 ctx.len)).pE,
                            keyEntryLength := u32 ((mbedtls_mpi_bitlen ctx.E + 7) / 8) } } := by
  have hl : ¬ (rsa_private_pqByteLength (u32 ctx.len) ≠ (mbedtls_mpi_bitlen ctx.P + 7) / 8
      ∨ rsa_private_pqByteLength (u32 ctx.len) ≠ (mbedtls_mpi_bitlen ctx.Q + 7) / 8) := by
    rintro (h | h)
    · exact h hP
    · exact h hQ
  have hsi : ¬ (K.MCUX_CSSL_FP_FUNCTION_CALLED FpFunction.mcuxClSession_init ≠ env.si_token
      ∨ K.MCUXCLSESSION_STATUS_OK ≠ env.si_status) := by
    rintro (h | h)
    · exact h hsit
    · exact h hsis
  by_cases hv : K.MCUX_CSSL_FP_FUNCTION_CALLED FpFunction.mcuxClRsa_sign
      ≠ env.sign_token ∨ K.MCUXCLRSA_STATUS_SIGN_OK ≠ env.sign_result
  · by_cases hi : K.MCUXCLRSA_STATUS_INVALID_INPUT = env.sign_result
    · simp [mbedtls_rsa_private, hc, hhw, hsi, hl, hv, hi]
    · simp [mbedtls_rsa_private, hc, hhw, hsi, hl, hv, hi]
  · by_cases hm : K.MCUX_CSSL_FP_FUNCTION_CALLED FpFunction.mcuxClMemory_copy
        ≠ env.tokenMemCpy ∧ 0 ≠ env.retMemCpy
    · simp [mbedtls_rsa_private, hc, hhw, hsi, hl, hv, hm]
    · by_cases hcl : K.MCUX_CSSL_FP_FUNCTION_CALLED FpFunction.mcuxClSession_cleanup
          ≠ env.cleanup_token ∨ K.MCUXCLSESSION_STATUS_OK ≠ env.cleanup_result
      · simp [mbedtls_rsa_private, hc, hhw, hsi, hl, hv, hm, hcl]
      · by_cases hde : K.MCUX_CSSL_FP_FUNCTION_CALLED FpFunction.mcuxClSession_destroy
            ≠ env.destroy_token ∨ K.MCUXCLSESSION_STATUS_OK ≠ env.destroy_result
        · simp [mbedtls_rsa_private, hc, hhw, hsi, hl, hv, hm, hcl, hde]
        · simp [mbedtls_rsa_private, hc, hhw, hsi, hl, hv, hm, hcl, hde]

/-- C8 (amended): on the write path of `mbedtls_rsa_private` (context check,
bring-up and session initialisation succeeded), a `P` or `Q` whose minimal
byte length disagrees with `pqByteLength` makes the call return
`MBEDTLS_ERR_RSA_BAD_INPUT_DATA` before anything is marshaled, so `P` and `Q`
are only ever written with length `pqByteLength`; `QP`, `DP`, `DQ` and `E` are
not length-checked: once `P` and `Q` have passed, all six operands are
written, each with its own minimal byte length, and that length (as a
`uint32_t`) is the one recorded in its key entry; no operand is written with
any other length. -/
theorem C8_rsa_private_write_path (K : Consts) (env : RsaEnv)
    (ctx : mbedtls_rsa_context) (output : List Nat)
    (hc : env.rsa_check_context ctx 1 1 = 0)
    (hhw : env.mbedtls_hw_init = 0)
    (hsit : K.MCUX_CSSL_FP_FUNCTION_CALLED FpFunction.mcuxClSession_init = env.si_token)
    (hsis : K.MCUXCLSESSION_STATUS_OK = env.si_status) :
    ((rsa_private_pqByteLength (u32 ctx.len) ≠ (mbedtls_mpi_bitlen ctx.P + 7) / 8 ∨
          rsa_private_pqByteLength (u32 ctx.len) ≠ (mbedtls_mpi_bitlen ctx.Q + 7) / 8) →
        mbedtls_rsa_private K env ctx output =
          { ret := K.MBEDTLS_ERR_RSA_BAD_INPUT_DATA, output := output, rsa_key := none,
            trace := [Event.mbedtls_hw_init, Event.mcuxClSession_init] }) ∧
      (rsa_private_pqByteLength (u32 ctx.len) = (mbedtls_mpi_bitlen ctx.P + 7) / 8 →
        rsa_private_pqByteLength (u32 ctx.len) = (mbedtls_mpi_bitlen ctx.Q + 7) / 8 →
        (Event.mbedtls_mpi_write_binary Operand.P (rsa_private_ptrs K (u32 ctx.len)).pP
              ((mbedtls_mpi_bitlen ctx.P + 7) / 8) ∈
            (mbedtls_rsa_private K env ctx output).trace ∧
          Event.mbedtls_mpi_write_binary Operand.Q (rsa_private_ptrs K (u32 ctx.len)).pQ
              ((mbedtls_mpi_bitlen ctx.Q + 7) / 8) ∈
            (mbedtls_rsa_private K env ctx output).trace ∧
          Event.mbedtls_mpi_write_binary Operand.QP (rsa_private_ptrs K (u32 ctx.len)).pQ_inv
              ((mbedtls_mpi_bitlen ctx.QP + 7) / 8) ∈
            (mbedtls_rsa_private K env ctx output).trace ∧
          Event.mbedtls_mpi_write_binary Operand.DP (rsa_private_ptrs K (u32 ctx.len)).pDP
              ((mbedtls_mpi_bitlen ctx.DP + 7) / 8) ∈
            (mbedtls_rsa_private K env ctx output).trace ∧
          Event.mbedtls_mpi_write_binary Operand.DQ (rsa_private_ptrs K (u32 ctx.len)).pDQ
              ((mbedtls_mpi_bitlen ctx.DQ + 7) / 8) ∈
            (mbedtls_rsa_private K env ctx output).trace ∧
          Event.mbedtls_mpi_write_binary Operand.E (rsa_private_ptrs K (u32 ctx.len)).pE
              ((mbedtls_mpi_bitlen ctx.E + 7) / 8) ∈
            (mbedtls_rsa_private K env ctx output).trace) ∧
        (mbedtls_rsa_private K env ctx output).rsa_key =
          some
            { keytype := KeyType.MCUXCLRSA_KEY_PRIVATECRT,
              pMod1 := some { pKeyEntryData := (rsa_private_ptrs K (u32 ctx.len)).pP,
                              keyEntryLength := u32 ((mbedtls_mpi_bitlen ctx.P + 7) / 8) },
              pMod2 := some { pKeyEntryData := (rsa_private_ptrs K (u32 ctx.len)).pQ,
                              keyEntryLength := u32 ((mbedtls_mpi_bitlen ctx.Q + 7) / 8) },
              pQInv := some { pKeyEntryData := (rsa_private_ptrs K (u32 ctx.len)).pQ_inv,
                              keyEntryLength := u32 ((mbedtls_mpi_bitlen ctx.QP + 7) / 8) },
              pExp1 := some { pKeyEntryData := (rsa_private_ptrs K (u32 ctx.len)).pDP,
                              keyEntryLength := u32 ((mbedtls_mpi_bitlen ctx.DP + 7) / 8) },
              pExp2 := some { pKeyEntryData := (rsa_private_ptrs K (u32 ctx.len)).pDQ,
                              keyEntryLength := u32 ((mbedtls_mpi_bitlen ctx.DQ + 7) / 8) },
              pExp3 := some { pKeyEntryData := (rsa_private_ptrs K (u32 ctx.len)).pE,
                              keyEntryLength := u32 ((mbedtls_mpi_bitlen ctx.E + 7) / 8) } }) ∧
      (∀ X buf buflen,
        Event.mbedtls_mpi_write_binary X buf buflen ∈
            (mbedtls_rsa_private K env ctx output).trace →
          buflen = (mbedtls_mpi_bitlen (operandValue ctx X) + 7) / 8 ∧
          ((X = Operand.P ∨ X = Operand.Q) →
            buflen = rsa_private_pqByteLength (u32 ctx.len))) := by
  refine ⟨?_, ?_, ?_⟩
  · intro hor
    simp [mbedtls_rsa_private, hc, hhw, hsit, hsis, hor]
  · intro hP hQ
    exact rsa_private_marshals_all_operands K env ctx output hc hhw hsit hsis hP hQ
  · intro X buf buflen
    by_cases hor : rsa_private_pqByteLength (u32 ctx.len) ≠ (mbedtls_mpi_bitlen ctx.P + 7) / 8 ∨
        rsa_private_pqByteLength (u32 ctx.len) ≠ (mbedtls_mpi_bitlen ctx.Q + 7) / 8
    · simp [mbedtls_rsa_private, hc, hhw, hsit, hsis, hor]
    · have hP : rsa_private_pqByteLength (u32 ctx.len) = (mbedtls_mpi_bitlen ctx.P + 7) / 8 := by
        by_contra h
        exact hor (Or.inl h)
      have hQ : rsa_private_pqByteLength (u32 ctx.len) = (mbedtls_mpi_bitlen ctx.Q + 7) / 8 := by
        by_contra h
        exact hor (Or.inr h)
      simp only [mbedtls_rsa_private, hc, hhw, hsit, hsis, hor]
      split_ifs <;>
      · simp only [List.mem_append, List.mem_cons, List.mem_singleton, Event.mbedtls_mpi_write_binary.injEq,
          reduceCtorEq, List.not_mem_nil, or_false, false_or, false_and, and_false]
        rintro (⟨rfl, rfl, rfl⟩ | ⟨rfl, rfl, rfl⟩ | ⟨rfl, rfl, rfl⟩ | ⟨rfl, rfl, rfl⟩ |
          ⟨rfl, rfl, rfl⟩ | ⟨rfl, rfl, rfl⟩) <;> simp [operandValue, ← hP, ← hQ]

/-- Witness for C8 (amended): the key with the one-byte `DP` and
`pqByteLength = 2`: `DP` is written with length `1` at its slot, and the whole
key stored in the context records the operands' own lengths `2, 2, 2, 1, 2, 3`. -/
theorem C8_rsa_private_write_path_witness :
    (sampleRsaEnv 0 0x1003 0xF3F3F3F3 0x1004 0xF2F2F2F2).rsa_check_context
        shortDpRsaCtx 1 1 = 0 ∧
      (sampleRsaEnv 0 0x1003 0xF3F3F3F3 0x1004 0xF2F2F2F2).mbedtls_hw_init = 0 ∧
      Event.mbedtls_mpi_write_binary Operand.DP 0x20008006 1 ∈
        (mbedtls_rsa_private sampleConsts (sampleRsaEnv 0 0x1003 0xF3F3F3F3 0x1004 0xF2F2F2F2)
          shortDpRsaCtx [0, 0, 0, 0]).trace ∧
      (mbedtls_rsa_private sampleConsts (sampleRsaEnv 0 0x1003 0xF3F3F3F3 0x1004 0xF2F2F2F2)
          shortDpRsaCtx [0, 0, 0, 0]).rsa_key =
        some
          { keytype := KeyType.MCUXCLRSA_KEY_PRIVATECRT,
            pMod1 := some { pKeyEntryData := 0x20008000, keyEntryLength := 2 },
            pMod2 := some { pKeyEntryData := 0x20008002, keyEntryLength := 2 },
            pQInv := some { pKeyEntryData := 0x20008004, keyEntryLength := 2 },
            pExp1 := some { pKeyEntryData := 0x20008006, keyEntryLength := 1 },
            pExp2 := some { pKeyEntryData := 0x20008008, keyEntryLength := 2 },
            pExp3 := some { pKeyEntryData := 0x2000800A, keyEntryLength := 3 } } ∧
      (1 : Nat) = (mbedtls_mpi_bitlen (operandValue shortDpRsaCtx Operand.DP) + 7) / 8 :=
  have h := C8_rsa_private_write_path sampleConsts
    (sampleRsaEnv 0 0x1003 0xF3F3F3F3 0x1004 0xF2F2F2F2) shortDpRsaCtx [0, 0, 0, 0]
    rfl rfl rfl rfl
  have h2 := h.2.1 (by decide) (by decide)
  ⟨rfl, rfl, h2.1.2.2.2.1, h2.2,
    (h.2.2 Operand.DP (rsa_private_ptrs sampleConsts (u32 shortDpRsaCtx.len)).pDP 1
      (by decide)).1⟩

/-- A value below `2 ^ 32` is its own `uint32_t` reduction. -/
theorem u32_of_lt {x : Nat} (h : x < 2 ^ 32) : u32 x = x :=
  Nat.mod_eq_of_lt h

/-- Rounding up does not go below the argument, and stays within one word of
it, when nothing wraps. -/
theorem roundup_bounds (K : Consts) (x : Nat) (hW : 0 < K.MCUXCLPKC_WORDSIZE)
    (hx : x + K.MCUXCLPKC_WORDSIZE ≤ 2 ^ 32) :
    x ≤ MCUXCLPKC_ROUNDUP_SIZE K x ∧
      MCUXCLPKC_ROUNDUP_SIZE K x < x + K.MCUXCLPKC_WORDSIZE := by
  have h1 : x + K.MCUXCLPKC_WORDSIZE - 1 < 2 ^ 32 := by omega
  have h2 : (x + K.MCUXCLPKC_WORDSIZE - 1) / K.MCUXCLPKC_WORDSIZE * K.MCUXCLPKC_WORDSIZE
      ≤ x + K.MCUXCLPKC_WORDSIZE - 1 := Nat.div_mul_le_self _ _
  have h3 : (x + K.MCUXCLPKC_WORDSIZE - 1) / K.MCUXCLPKC_WORDSIZE
      ≤ x + K.MCUXCLPKC_WORDSIZE - 1 := Nat.div_le_self _ _
  have h4 : x + K.MCUXCLPKC_WORDSIZE - 1 <
      (x + K.MCUXCLPKC_WORDSIZE - 1) / K.MCUXCLPKC_WORDSIZE * K.MCUXCLPKC_WORDSIZE
        + K.MCUXCLPKC_WORDSIZE := Nat.lt_div_mul_add hW
  unfold MCUXCLPKC_ROUNDUP_SIZE
  rw [u32_of_lt h1, u32_of_lt (lt_of_le_of_lt h3 h1), u32_of_lt (lt_of_le_of_lt h2 h1)]
  omega

/-- C9: for every modulus byte length for which nothing wraps in 32 bits, the
operand slots of `mbedtls_rsa_private` (`p`, `q`, `q^-1`, `dP`, `dQ` of
`pqByteLength` bytes, `e` and the result buffer of `nByteLength` bytes) and of
`mbedtls_rsa_public` (modulus, exponent, result buffer of `nByteLength` bytes)
start at the beginning of the PKC RAM, follow one another without gap or
overlap in that order, and lie within `pkcWaSize` bytes; their sizes add up to
`5 * pqByteLength + 2 * nByteLength` and `3 * nByteLength`. -/
theorem C9_rsa_layout (K : Consts) (nByteLength : Nat)
    (hW : 0 < K.MCUXCLPKC_WORDSIZE)
    (hno : 5 * ((nByteLength + 1) / 2) + 2 * nByteLength + K.MCUXCLPKC_WORDSIZE ≤ 2 ^ 32) :
    LayoutOk K.MCUXCLPKC_RAM_START_ADDRESS (rsa_private_pkcWaSize K nByteLength)
        (rsa_private_slots K nByteLength) ∧
      ((rsa_private_slots K nByteLength).map Slot.size).sum =
        5 * rsa_private_pqByteLength nByteLength + 2 * nByteLength ∧
      rsa_private_pqByteLength nByteLength = (nByteLength + 1) / 2 ∧
      LayoutOk K.MCUXCLPKC_RAM_START_ADDRESS (rsa_public_pkcWaSize K nByteLength)
        (rsa_public_slots K nByteLength) ∧
      ((rsa_public_slots K nByteLength).map Slot.size).sum = 3 * nByteLength := by
  have hpq : rsa_private_pqByteLength nByteLength = (nByteLength + 1) / 2 := by
    unfold rsa_private_pqByteLength
    rw [u32_of_lt (by omega)]
  have hpriv : rsa_private_pkcWaSize K nByteLength =
      MCUXCLPKC_ROUNDUP_SIZE K (5 * ((nByteLength + 1) / 2) + 2 * nByteLength) := by
    unfold rsa_private_pkcWaSize
    simp only [hpq]
    rw [u32_of_lt (x := 2 * ((nByteLength + 1) / 2)) (by omega),
      u32_of_lt (x := 2 * ((nByteLength + 1) / 2) + (nByteLength + 1) / 2) (by omega),
      u32_of_lt (x := 2 * ((nByteLength + 1) / 2) + (nByteLength + 1) / 2
        + 2 * ((nByteLength + 1) / 2)) (by omega),
      u32_of_lt (x := 2 * ((nByteLength + 1) / 2) + (nByteLength + 1) / 2
        + 2 * ((nByteLength + 1) / 2) + nByteLength) (by omega),
      u32_of_lt (x := 2 * ((nByteLength + 1) / 2) + (nByteLength + 1) / 2
        + 2 * ((nByteLength + 1) / 2) + nByteLength + nByteLength) (by omega)]
    congr 1
    omega
  have hpub : rsa_public_pkcWaSize K nByteLength =
      MCUXCLPKC_ROUNDUP_SIZE K (3 * nByteLength) := by
    unfold rsa_public_pkcWaSize
    rw [u32_of_lt (x := nByteLength + nByteLength) (by omega),
      u32_of_lt (x := nByteLength + nByteLength + nByteLength) (by omega)]
    congr 1
    omega
  have hr1 := (roundup_bounds K (5 * ((nByteLength + 1) / 2) + 2 * nByteLength) hW hno).1
  have hr2 := (roundup_bounds K (3 * nByteLength) hW (by omega)).1
  refine ⟨?_, ?_, hpq, ?_, ?_⟩
  · rw [hpriv]
    simp only [LayoutOk, rsa_private_slots, rsa_private_ptrs, hpq, Slot.stop]
    refine ⟨by simp, by simp [List.chain'_cons], ?_, ?_, ?_⟩
    · simp only [List.pairwise_cons, List.mem_cons, List.mem_singleton, List.not_mem_nil,
        forall_eq_or_imp, forall_eq, IsEmpty.forall_iff, implies_true, List.Pairwise.nil,
        and_true]
      omega
    · simp only [List.mem_cons, List.mem_singleton, List.not_mem_nil, or_false,
        forall_eq_or_imp, forall_eq]
      omega
    · simp only [List.map_cons, List.map_nil, List.sum_cons, List.sum_nil]
      omega
  · simp only [rsa_private_slots, hpq, List.map_cons, List.map_nil, List.sum_cons,
      List.sum_nil]
    omega
  · rw [hpub]
    simp only [LayoutOk, rsa_public_slots, rsa_public_ptrs, Slot.stop]
    refine ⟨by simp, by simp [List.chain'_cons], ?_, ?_, ?_⟩
    · simp only [List.pairwise_cons, List.mem_cons, List.mem_singleton, List.not_mem_nil,
        forall_eq_or_imp, forall_eq, IsEmpty.forall_iff, implies_true, List.Pairwise.nil,
        and_true]
      omega
    · simp only [List.mem_cons, List.mem_singleton, List.not_mem_nil, or_false,
        forall_eq_or_imp, forall_eq]
      omega
    · simp only [List.map_cons, List.map_nil, List.sum_cons, List.sum_nil]
      omega
  · simp only [rsa_public_slots, List.map_cons, List.map_nil, List.sum_cons, List.sum_nil]
    omega

/-- Witness for C9: a 2048-bit modulus (`nByteLength = 256`) with the sample
constants (word size `8`). -/
theorem C9_rsa_layout_witness :
    0 < sampleConsts.MCUXCLPKC_WORDSIZE ∧
      5 * ((256 + 1) / 2) + 2 * 256 + sampleConsts.MCUXCLPKC_WORDSIZE ≤ 2 ^ 32 ∧
      LayoutOk sampleConsts.MCUXCLPKC_RAM_START_ADDRESS (rsa_private_pkcWaSize sampleConsts 256)
        (rsa_private_slots sampleConsts 256) ∧
      rsa_private_pkcWaSize sampleConsts 256 = 1152 ∧
      LayoutOk sampleConsts.MCUXCLPKC_RAM_START_ADDRESS (rsa_public_pkcWaSize sampleConsts 256)
        (rsa_public_slots sampleConsts 256) ∧
      rsa_public_pkcWaSize sampleConsts 256 = 768 :=
  have h := C9_rsa_layout sampleConsts 256 (by decide) (by decide)
  ⟨by decide, by decide, h.1, by decide, h.2.2.2.1, by decide⟩

/-- A non-null pointer that occurs in a list whose non-null entries are
pairwise different occurs in it exactly once. -/
theorem count_eq_one_of_nonNull_nodup (l : List Nat) (b : Nat) (hb : b ≠ 0)
    (hmem : b ∈ l) (hnd : (nonNull l).Nodup) : l.count b = 1 := by
  have h1 : (nonNull l).count b = l.count b := by
    unfold nonNull
    exact List.count_filter (by simpa using hb)
  have h2 : b ∈ nonNull l := by
    unfold nonNull
    exact List.mem_filter.mpr ⟨hmem, by simpa using hb⟩
  rw [← h1]
  exact List.count_eq_one_of_mem hnd h2

/-- C10: one call of `mbedtls_ecp_free_ecdh` with non-null domain parameters
and non-null point-multiplication parameters, whose non-null buffers `pA`,
`pB`, `pP`, `pG`, `pN`, `pScalar`, `pResult` are pairwise different and whose
`pPoint` is either `pG` or different from all of them, passes every non-null
buffer to `mbedtls_free` exactly once: `pG` once when `pPoint` is `pG`,
`pPoint` and `pG` once each when they differ. -/
theorem C10_free_ecdh_each_buffer_once (dp : mcuxClEcc_DomainParam_t)
    (pm : mcuxClEcc_PointMult_Param_t)
    (hdist : (nonNull (ownedBuffers dp pm)).Nodup)
    (hpt : pm.pPoint = dp.pG ∨ (nonNull (pm.pPoint :: ownedBuffers dp pm)).Nodup) :
    (pm.pPoint = dp.pG →
        mbedtls_ecp_free_ecdh (some dp) (some pm) = ownedBuffers dp pm) ∧
      (pm.pPoint ≠ dp.pG →
        mbedtls_ecp_free_ecdh (some dp) (some pm) = pm.pPoint :: ownedBuffers dp pm) ∧
      (∀ b ∈ pm.pPoint :: ownedBuffers dp pm, b ≠ 0 →
        (mbedtls_ecp_free_ecdh (some dp) (some pm)).count b = 1) := by
  have halias : pm.pPoint = dp.pG →
      mbedtls_ecp_free_ecdh (some dp) (some pm) = ownedBuffers dp pm := by
    intro h
    simp [mbedtls_ecp_free_ecdh, ownedBuffers, h]
  have hown : pm.pPoint ≠ dp.pG →
      mbedtls_ecp_free_ecdh (some dp) (some pm) = pm.pPoint :: ownedBuffers dp pm := by
    intro h
    simp [mbedtls_ecp_free_ecdh, ownedBuffers, Ne.symm h]
  refine ⟨halias, hown, ?_⟩
  intro b hb hb0
  by_cases h : pm.pPoint = dp.pG
  · rw [halias h]
    have hmem : b ∈ ownedBuffers dp pm := by
      rcases List.mem_cons.mp hb with h1 | h1
      · rw [h1, h]
        simp [ownedBuffers]
      · exact h1
    exact count_eq_one_of_nonNull_nodup _ b hb0 hmem hdist
  · rw [hown h]
    rcases hpt with h1 | h1
    · exact absurd h1 h
    · exact count_eq_one_of_nonNull_nodup _ b hb0 hb h1

/-- Witness for C10: a base-point multiplication over the sample pointers;
the shared buffer `pG = pPoint = 0x1300` is released once. -/
theorem C10_free_ecdh_each_buffer_once_witness :
    (nonNull (ownedBuffers sampleDomainParams sampleBasePointParams)).Nodup ∧
      sampleBasePointParams.pPoint = sampleDomainParams.pG ∧
      (mbedtls_ecp_free_ecdh (some sampleDomainParams) (some sampleBasePointParams)).count
        0x1300 = 1 ∧
      (nonNull (sampleOwnPointParams.pPoint ::
        ownedBuffers sampleDomainParams sampleOwnPointParams)).Nodup ∧
      (mbedtls_ecp_free_ecdh (some sampleDomainParams) (some sampleOwnPointParams)).count
        0x1600 = 1 ∧
      (mbedtls_ecp_free_ecdh (some sampleDomainParams) (some sampleOwnPointParams)).count
        0x1300 = 1 :=
  ⟨by decide, rfl,
    (C10_free_ecdh_each_buffer_once sampleDomainParams sampleBasePointParams (by decide)
      (Or.inl rfl)).2.2 0x1300 (by decide) (by decide),
    by decide,
    (C10_free_ecdh_each_buffer_once sampleDomainParams sampleOwnPointParams (by decide)
      (Or.inr (by decide))).2.2 0x1600 (by decide) (by decide),
    (C10_free_ecdh_each_buffer_once sampleDomainParams sampleOwnPointParams (by decide)
      (Or.inr (by decide))).2.2 0x1300 (by decide) (by decide)⟩

/-- Outside the path on which the random source fails, every run of
`mbedtls_ecdh_gen_public` frees exactly the pointers it allocated, each as
often as it was allocated. -/
theorem gen_public_frees_what_it_allocates (K : Consts) (env : EcdhEnv)
    (grp : mbedtls_ecp_group) (d : mbedtls_mpi) (Q : mbedtls_ecp_point)
    (h : env.mbedtls_hw_init = 0 → env.mbedtls_ecp_setupDomainParams grp = 0 →
      (env.f_rng RngArg.rng_ctx (u32 ((grp.nbits + 7) / 8))).1 = 0) :
    freedPtrs (mbedtls_ecdh_gen_public K env grp d Q).trace =
      allocatedPtrs (mbedtls_ecdh_gen_public K env grp d Q).trace := by
  by_cases hhw : env.mbedtls_hw_init = 0
  · by_cases hs : env.mbedtls_ecp_setupDomainParams grp = 0
    · have hr := h hhw hs
      simp only [mbedtls_ecdh_gen_public, hhw, hs, hr, ne_eq, not_true_eq_false, if_false]
      split_ifs <;>
        simp [freedPtrs, allocatedPtrs, freeEvents, mbedtls_ecp_free_ecdh, List.filterMap_append]
    · simp [mbedtls_ecdh_gen_public, hhw, hs, freedPtrs, allocatedPtrs, freeEvents,
        mbedtls_ecp_free_ecdh, List.filterMap_append]
  · simp [mbedtls_ecdh_gen_public, hhw, freedPtrs, allocatedPtrs]

/-- Every run of `mbedtls_ecdh_compute_shared` in which the point buffer is
not the base-point buffer frees exactly the pointers it allocated, each as
often as it was allocated. -/
theorem compute_shared_frees_what_it_allocates (K : Consts) (env : EcdhEnv)
    (grp : mbedtls_ecp_group) (z : mbedtls_mpi) (Q : mbedtls_ecp_point) (d : mbedtls_mpi)
    (hne : env.calloc.pG ≠ env.calloc.pPoint) :
    List.Perm (freedPtrs (mbedtls_ecdh_compute_shared K env grp z Q d).trace)
      (allocatedPtrs (mbedtls_ecdh_compute_shared K env grp z Q d).trace) := by
  rw [List.perm_iff_count]
  intro p
  by_cases hhw : env.mbedtls_hw_init = 0
  · by_cases hs : env.mbedtls_ecp_setupDomainParams grp = 0
    · by_cases hX : env.mbedtls_mpi_write_binary Q.X (u32 ((grp.pbits + 7) / 8)) = 0
      · by_cases hY : env.mbedtls_mpi_write_binary Q.Y (u32 ((grp.pbits + 7) / 8)) = 0
        · by_cases hd : env.mbedtls_mpi_write_binary d (u32 ((grp.nbits + 7) / 8)) = 0
          · simp only [mbedtls_ecdh_compute_shared, hhw, hs, hX, hY, hd, ne_eq,
              not_true_eq_false, if_false]
            split_ifs <;>
              simp [freedPtrs, allocatedPtrs, freeEvents, mbedtls_ecp_free_ecdh,
                List.filterMap_append, hne, List.count_cons] <;> omega
          · simp [mbedtls_ecdh_compute_shared, hhw, hs, hX, hY, hd, freedPtrs, allocatedPtrs,
              freeEvents, mbedtls_ecp_free_ecdh, List.filterMap_append, hne, List.count_cons]
            omega
        · simp [mbedtls_ecdh_compute_shared, hhw, hs, hX, hY, freedPtrs, allocatedPtrs,
            freeEvents, mbedtls_ecp_free_ecdh, List.filterMap_append, hne, List.count_cons]
          omega
      · simp [mbedtls_ecdh_compute_shared, hhw, hs, hX, freedPtrs, allocatedPtrs,
          freeEvents, mbedtls_ecp_free_ecdh, List.filterMap_append, hne, List.count_cons]
        omega
    · simp [mbedtls_ecdh_compute_shared, hhw, hs, freedPtrs, allocatedPtrs, freeEvents,
        mbedtls_ecp_free_ecdh, List.filterMap_append]
  · simp [mbedtls_ecdh_compute_shared, hhw, freedPtrs, allocatedPtrs]

/-- C11 (the code at the failing input): when the random source returns a
non-zero code, `mbedtls_ecdh_gen_public` returns
`MBEDTLS_ERR_ERROR_CORRUPTION_DETECTED` having allocated `pA`, `pB`, `pP`,
`pG`, `pN` and the scalar and having released none of them; on the
token-mismatch path of the same function the seven allocated buffers are all
released. -/
theorem C11_gen_public_rng_failure_leaks :
    (mbedtls_ecdh_gen_public sampleConsts (sampleEcdhEnv 0 1 0x1001 0xA5A5A5A5)
        sampleGrp 0 samplePoint).ret = -0x006E ∧
      allocatedPtrs (mbedtls_ecdh_gen_public sampleConsts (sampleEcdhEnv 0 1 0x1001 0xA5A5A5A5)
        sampleGrp 0 samplePoint).trace = [0x1000, 0x1100, 0x1200, 0x1300, 0x1400, 0x1500] ∧
      freedPtrs (mbedtls_ecdh_gen_public sampleConsts (sampleEcdhEnv 0 1 0x1001 0xA5A5A5A5)
        sampleGrp 0 samplePoint).trace = [] ∧
      allocatedPtrs (mbedtls_ecdh_gen_public sampleConsts (sampleEcdhEnv 0 0 0 0xA5A5A5A5)
        sampleGrp 0 samplePoint).trace =
          [0x1000, 0x1100, 0x1200, 0x1300, 0x1400, 0x1500, 0x1700] ∧
      freedPtrs (mbedtls_ecdh_gen_public sampleConsts (sampleEcdhEnv 0 0 0 0xA5A5A5A5)
        sampleGrp 0 samplePoint).trace =
          [0x1000, 0x1100, 0x1200, 0x1300, 0x1400, 0x1500, 0x1700] := by
  decide

/-- C12 (counterexample): after a token mismatch of the point multiplication
`mbedtls_ecdh_gen_public` returns with the session initialised and neither
`mcuxClSession_cleanup` nor `mcuxClSession_destroy` called; the same holds for
`mbedtls_rsa_public` after a token mismatch of `mcuxClRsa_verify` and after a
failed length check. -/
theorem C12_failure_paths_skip_session_cleanup :
    Event.mcuxClSession_init ∈
        (mbedtls_ecdh_gen_public sampleConsts (sampleEcdhEnv 0 0 0 0xA5A5A5A5)
          sampleGrp 0 samplePoint).trace ∧
      Event.mcuxClSession_cleanup ∉
        (mbedtls_ecdh_gen_public sampleConsts (sampleEcdhEnv 0 0 0 0xA5A5A5A5)
          sampleGrp 0 samplePoint).trace ∧
      Event.mcuxClSession_destroy ∉
        (mbedtls_ecdh_gen_public sampleConsts (sampleEcdhEnv 0 0 0 0xA5A5A5A5)
          sampleGrp 0 samplePoint).trace ∧
      (mbedtls_rsa_public sampleConsts (sampleRsaEnv 0 0 0xF3F3F3F3 0x1004 0xF2F2F2F2)
        sampleRsaCtx [0, 0, 0, 0]).trace =
          [Event.mbedtls_hw_init, Event.mcuxClSession_init,
           Event.mbedtls_mpi_write_binary Operand.N 0x20008000 4,
           Event.mbedtls_mpi_write_binary Operand.E 0x20008004 3,
           Event.pkcWa_used_add 4, Event.mcuxClRsa_verify] ∧
      (mbedtls_rsa_public sampleConsts (sampleRsaEnv 0 0x1003 0xF3F3F3F3 0x1004 0xF2F2F2F2)
        wrongLenRsaCtx [0, 0, 0, 0, 0]).trace =
          [Event.mbedtls_hw_init, Event.mcuxClSession_init] := by
  decide

/-- With non-zero error codes, `mbedtls_ecdh_gen_public` returns `0` exactly on
the path on which it calls `mcuxClSession_cleanup` and `mcuxClSession_destroy`. -/
theorem gen_public_zero_iff_cleaned (K : Consts) (env : EcdhEnv) (grp : mbedtls_ecp_group)
    (d : mbedtls_mpi) (Q : mbedtls_ecp_point) (hK : ErrorCodesNonZero K) :
    ((mbedtls_ecdh_gen_public K env grp d Q).ret = 0 ↔
        Event.mcuxClSession_cleanup ∈ (mbedtls_ecdh_gen_public K env grp d Q).trace) ∧
      ((mbedtls_ecdh_gen_public K env grp d Q).ret = 0 ↔
        Event.mcuxClSession_destroy ∈ (mbedtls_ecdh_gen_public K env grp d Q).trace) := by
  obtain ⟨k1, k2, k3, k4, _, _, _, _⟩ := hK
  by_cases hhw : env.mbedtls_hw_init = 0
  · by_cases hs : env.mbedtls_ecp_setupDomainParams grp = 0
    · by_cases hr : (env.f_rng RngArg.rng_ctx (u32 ((grp.nbits + 7) / 8))).1 = 0
      · by_cases ht : K.MCUX_CSSL_FP_FUNCTION_CALLED FpFunction.mcuxClEcc_PointMult
            = env.tokenEccPointMult
        · by_cases h1 : K.MCUXCLECC_STATUS_POINTMULT_INVALID_PARAMS = env.retEccPointMult
          · simp [mbedtls_ecdh_gen_public, hhw, hs, hr, ht, h1, freeEvents, k1]
          · by_cases h2 : K.MCUXCLECC_STATUS_POINTMULT_RNG_ERROR = env.retEccPointMult
            · simp [mbedtls_ecdh_gen_public, hhw, hs, hr, ht, h1, h2, freeEvents, k2]
            · by_cases h3 : K.MCUXCLECC_STATUS_POINTMULT_OK = env.retEccPointMult
              · simp [mbedtls_ecdh_gen_public, hhw, hs, hr, ht, h1, h2, h3, freeEvents]
              · simp [mbedtls_ecdh_gen_public, hhw, hs, hr, ht, h1, h2, h3, freeEvents, k3]
        · simp [mbedtls_ecdh_gen_public, hhw, hs, hr, ht, freeEvents, k3]
      · simp [mbedtls_ecdh_gen_public, hhw, hs, hr, k3]
    · simp [mbedtls_ecdh_gen_public, hhw, hs, freeEvents, k3]
  · simp [mbedtls_ecdh_gen_public, hhw, k4]

/-- With non-zero error codes, `mbedtls_ecdh_compute_shared` returns `0` exactly
on the path on which it calls `mcuxClSession_cleanup` and
`mcuxClSession_destroy`. -/
theorem compute_shared_zero_iff_cleaned (K : Consts) (env : EcdhEnv) (grp : mbedtls_ecp_group)
    (z : mbedtls_mpi) (Q : mbedtls_ecp_point) (d : mbedtls_mpi) (hK : ErrorCodesNonZero K) :
    ((mbedtls_ecdh_compute_shared K env grp z Q d).ret = 0 ↔
        Event.mcuxClSession_cleanup ∈ (mbedtls_ecdh_compute_shared K env grp z Q d).trace) ∧
      ((mbedtls_ecdh_compute_shared K env grp z Q d).ret = 0 ↔
        Event.mcuxClSession_destroy ∈ (mbedtls_ecdh_compute_shared K env grp z Q d).trace) := by
  obtain ⟨k1, k2, k3, k4, _, _, _, _⟩ := hK
  by_cases hhw : env.mbedtls_hw_init = 0
  · by_cases hs : env.mbedtls_ecp_setupDomainParams grp = 0
    · by_cases hX : env.mbedtls_mpi_write_binary Q.X (u32 ((grp.pbits + 7) / 8)) = 0
      · by_cases hY : env.mbedtls_mpi_write_binary Q.Y (u32 ((grp.pbits + 7) / 8)) = 0
        · by_cases hd : env.mbedtls_mpi_write_binary d (u32 ((grp.nbits + 7) / 8)) = 0
          · by_cases ht : K.MCUX_CSSL_FP_FUNCTION_CALLED FpFunction.mcuxClEcc_PointMult
                = env.tokenEccPointMult
            · by_cases h1 : K.MCUXCLECC_STATUS_POINTMULT_INVALID_PARAMS = env.retEccPointMult
              · simp [mbedtls_ecdh_compute_shared, hhw, hs, hX, hY, hd, ht, h1, freeEvents, k1]
              · by_cases h2 : K.MCUXCLECC_STATUS_POINTMULT_RNG_ERROR = env.retEccPointMult
                · simp [mbedtls_ecdh_compute_shared, hhw, hs, hX, hY, hd, ht, h1, h2,
                    freeEvents, k2]
                · by_cases h3 : K.MCUXCLECC_STATUS_POINTMULT_OK = env.retEccPointMult
                  · simp [mbedtls_ecdh_compute_shared, hhw, hs, hX, hY, hd, ht, h1, h2, h3,
                      freeEvents]
                  · simp [mbedtls_ecdh_compute_shared, hhw, hs, hX, hY, hd, ht, h1, h2, h3,
                      freeEvents, k3]
            · simp [mbedtls_ecdh_compute_shared, hhw, hs, hX, hY, hd, ht, freeEvents, k3]
          · simp [mbedtls_ecdh_compute_shared, hhw, hs, hX, hY, hd, freeEvents, k3]
        · simp [mbedtls_ecdh_compute_shared, hhw, hs, hX, hY, freeEvents, k3]
      · simp [mbedtls_ecdh_compute_shared, hhw, hs, hX, freeEvents, k3]
    · simp [mbedtls_ecdh_compute_shared, hhw, hs, freeEvents, k3]
  · simp [mbedtls_ecdh_compute_shared, hhw, k4]

/-- With non-zero error codes, a run of `mbedtls_rsa_public` that returns `0`
has called `mcuxClSession_cleanup` and `mcuxClSession_destroy`; a run in which
the verify call failed, its token mismatched or the length check failed has
called neither. -/
theorem rsa_public_cleanup_paths (K : Consts) (env : RsaEnv) (ctx : mbedtls_rsa_context)
    (output : List Nat) (hK : ErrorCodesNonZero K) :
    ((mbedtls_rsa_public K env ctx output).ret = 0 →
        Event.mcuxClSession_cleanup ∈ (mbedtls_rsa_public K env ctx output).trace ∧
        Event.mcuxClSession_destroy ∈ (mbedtls_rsa_public K env ctx output).trace) ∧
      ((K.MCUX_CSSL_FP_FUNCTION_CALLED FpFunction.mcuxClRsa_verify ≠ env.verify_token ∨
          K.MCUXCLRSA_STATUS_VERIFYPRIMITIVE_OK ≠ env.verify_result ∨
          u32 ctx.len ≠ (mbedtls_mpi_bitlen ctx.N + 7) / 8) →
        Event.mcuxClSession_cleanup ∉ (mbedtls_rsa_public K env ctx output).trace ∧
        Event.mcuxClSession_destroy ∉ (mbedtls_rsa_public K env ctx output).trace) := by
  obtain ⟨_, _, _, _, k5, k6, k7, _⟩ := hK
  by_cases hc : env.rsa_check_context ctx 0 0 = 0
  · by_cases hhw : env.mbedtls_hw_init = 0
    · by_cases hsi : K.MCUX_CSSL_FP_FUNCTION_CALLED FpFunction.mcuxClSession_init ≠ env.si_token
          ∨ K.MCUXCLSESSION_STATUS_OK ≠ env.si_status
      · simp [mbedtls_rsa_public, hc, hhw, hsi, k7]
      · by_cases hl : u32 ctx.len = (mbedtls_mpi_bitlen ctx.N + 7) / 8
        · by_cases hv : K.MCUX_CSSL_FP_FUNCTION_CALLED FpFunction.mcuxClRsa_verify
              ≠ env.verify_token ∨ K.MCUXCLRSA_STATUS_VERIFYPRIMITIVE_OK ≠ env.verify_result
          · simp [mbedtls_rsa_public, hc, hhw, hsi, hl, hv, k7]
          · have hv1 : ¬ (K.MCUX_CSSL_FP_FUNCTION_CALLED FpFunction.mcuxClRsa_verify
                ≠ env.verify_token) := fun h => hv (Or.inl h)
            have hv2 : ¬ (K.MCUXCLRSA_STATUS_VERIFYPRIMITIVE_OK ≠ env.verify_result) :=
              fun h => hv (Or.inr h)
            by_cases hm : K.MCUX_CSSL_FP_FUNCTION_CALLED FpFunction.mcuxClMemory_copy
                ≠ env.tokenMemCpy ∧ 0 ≠ env.retMemCpy
            · simp [mbedtls_rsa_public, hc, hhw, hsi, hl, hv, hv1, hv2, hm, k7]
            · by_cases hcl : K.MCUX_CSSL_FP_FUNCTION_CALLED FpFunction.mcuxClSession_cleanup
                  ≠ env.cleanup_token ∨ K.MCUXCLSESSION_STATUS_OK ≠ env.cleanup_result
              · simp [mbedtls_rsa_public, hc, hhw, hsi, hl, hv, hv1, hv2, hm, hcl, k7]
              · by_cases hde : K.MCUX_CSSL_FP_FUNCTION_CALLED FpFunction.mcuxClSession_destroy
                    ≠ env.destroy_token ∨ K.MCUXCLSESSION_STATUS_OK ≠ env.destroy_result
                · simp [mbedtls_rsa_public, hc, hhw, hsi, hl, hv, hv1, hv2, hm, hcl, hde, k7]
                · simp [mbedtls_rsa_public, hc, hhw, hsi, hl, hv, hv1, hv2, hm, hcl, hde]
        · simp [mbedtls_rsa_public, hc, hhw, hsi, hl, k6]
    · simp [mbedtls_rsa_public, hc, hhw, k5]
  · simp [mbedtls_rsa_public, hc, k6]

/-- With non-zero error codes, a run of `mbedtls_rsa_private` that returns `0`
has called `mcuxClSession_cleanup` and `mcuxClSession_destroy`; a run in which
the sign call failed, its token mismatched or the length check failed has
called neither. -/
theorem rsa_private_cleanup_paths (K : Consts) (env : RsaEnv) (ctx : mbedtls_rsa_context)
    (output : List Nat) (hK : ErrorCodesNonZero K) :
    ((mbedtls_rsa_private K env ctx output).ret = 0 →
        Event.mcuxClSession_cleanup ∈ (mbedtls_rsa_private K env ctx output).trace ∧
        Event.mcuxClSession_destroy ∈ (mbedtls_rsa_private K env ctx output).trace) ∧
      ((K.MCUX_CSSL_FP_FUNCTION_CALLED FpFunction.mcuxClRsa_sign ≠ env.sign_token ∨
          K.MCUXCLRSA_STATUS_SIGN_OK ≠ env.sign_result ∨
          rsa_private_pqByteLength (u32 ctx.len) ≠ (mbedtls_mpi_bitlen ctx.P + 7) / 8 ∨
          rsa_private_pqByteLength (u32 ctx.len) ≠ (mbedtls_mpi_bitlen ctx.Q + 7) / 8) →
        Event.mcuxClSession_cleanup ∉ (mbedtls_rsa_private K env ctx output).trace ∧
        Event.mcuxClSession_destroy ∉ (mbedtls_rsa_private K env ctx output).trace) := by
  obtain ⟨_, _, _, _, k5, k6, _, k8⟩ := hK
  by_cases hc : env.rsa_check_context ctx 1 1 = 0
  · by_cases hhw : env.mbedtls_hw_init = 0
    · by_cases hsi : K.MCUX_CSSL_FP_FUNCTION_CALLED FpFunction.mcuxClSession_init ≠ env.si_token
          ∨ K.MCUXCLSESSION_STATUS_OK ≠ env.si_status
      · simp [mbedtls_rsa_private, hc, hhw, hsi, k8]
      · by_cases hl : rsa_private_pqByteLength (u32 ctx.len) ≠ (mbedtls_mpi_bitlen ctx.P + 7) / 8
            ∨ rsa_private_pqByteLength (u32 ctx.len) ≠ (mbedtls_mpi_bitlen ctx.Q + 7) / 8
        · simp [mbedtls_rsa_private, hc, hhw, hsi, hl, k6]
        · have hl1 : ¬ (rsa_private_pqByteLength (u32 ctx.len)
                ≠ (mbedtls_mpi_bitlen ctx.P + 7) / 8) := fun h => hl (Or.inl h)
          have hl2 : ¬ (rsa_private_pqByteLength (u32 ctx.len)
                ≠ (mbedtls_mpi_bitlen ctx.Q + 7) / 8) := fun h => hl (Or.inr h)
          by_cases hv : K.MCUX_CSSL_FP_FUNCTION_CALLED FpFunction.mcuxClRsa_sign
              ≠ env.sign_token ∨ K.MCUXCLRSA_STATUS_SIGN_OK ≠ env.sign_result
          · by_cases hi : K.MCUXCLRSA_STATUS_INVALID_INPUT = env.sign_result
            · simp [mbedtls_rsa_private, hc, hhw, hsi, hl, hv, hi, k6]
            · simp [mbedtls_rsa_private, hc, hhw, hsi, hl, hv, hi, k8]
          · have hv1 : ¬ (K.MCUX_CSSL_FP_FUNCTION_CALLED FpFunction.mcuxClRsa_sign
                ≠ env.sign_token) := fun h => hv (Or.inl h)
            have hv2 : ¬ (K.MCUXCLRSA_STATUS_SIGN_OK ≠ env.sign_result) :=
              fun h => hv (Or.inr h)
            by_cases hm : K.MCUX_CSSL_FP_FUNCTION_CALLED FpFunction.mcuxClMemory_copy
                ≠ env.tokenMemCpy ∧ 0 ≠ env.retMemCpy
            · simp [mbedtls_rsa_private, hc, hhw, hsi, hl, hl1, hl2, hv, hv1, hv2, hm, k8]
            · by_cases hcl : K.MCUX_CSSL_FP_FUNCTION_CALLED FpFunction.mcuxClSession_cleanup
                  ≠ env.cleanup_token ∨ K.MCUXCLSESSION_STATUS_OK ≠ env.cleanup_result
              · simp [mbedtls_rsa_private, hc, hhw, hsi, hl, hl1, hl2, hv, hv1, hv2, hm, hcl, k8]
              · by_cases hde : K.MCUX_CSSL_FP_FUNCTION_CALLED FpFunction.mcuxClSession_destroy
                    ≠ env.destroy_token ∨ K.MCUXCLSESSION_STATUS_OK ≠ env.destroy_result
                · simp [mbedtls_rsa_private, hc, hhw, hsi, hl, hl1, hl2, hv, hv1, hv2, hm, hcl,
                    hde, k8]
                · simp [mbedtls_rsa_private, hc, hhw, hsi, hl, hl1, hl2, hv, hv1, hv2, hm, hcl,
                    hde]
    · simp [mbedtls_rsa_private, hc, hhw, k5]
  · simp [mbedtls_rsa_private, hc, k6]

/-- C12 (amended): the two ECDH entry points call `mcuxClSession_cleanup` and
`mcuxClSession_destroy` exactly when they return `0`; the two RSA entry points
call both whenever they return `0`; on the paths where the verify or sign
call failed or its token mismatched, and where the length check after session
initialisation failed, neither of the two is called (error codes taken
non-zero). -/
theorem C12_session_cleanup_paths (K : Consts) (envE : EcdhEnv) (envR : RsaEnv)
    (grp : mbedtls_ecp_group) (d0 : mbedtls_mpi) (Q0 : mbedtls_ecp_point)
    (z0 : mbedtls_mpi) (Q : mbedtls_ecp_point) (d : mbedtls_mpi)
    (ctx : mbedtls_rsa_context) (output : List Nat)
    (hK : ErrorCodesNonZero K) :
    ((mbedtls_ecdh_gen_public K envE grp d0 Q0).ret = 0 ↔
        Event.mcuxClSession_cleanup ∈ (mbedtls_ecdh_gen_public K envE grp d0 Q0).trace) ∧
      ((mbedtls_ecdh_gen_public K envE grp d0 Q0).ret = 0 ↔
        Event.mcuxClSession_destroy ∈ (mbedtls_ecdh_gen_public K envE grp d0 Q0).trace) ∧
      ((mbedtls_ecdh_compute_shared K envE grp z0 Q d).ret = 0 ↔
        Event.mcuxClSession_cleanup ∈ (mbedtls_ecdh_compute_shared K envE grp z0 Q d).trace) ∧
      ((mbedtls_ecdh_compute_shared K envE grp z0 Q d).ret = 0 ↔
        Event.mcuxClSession_destroy ∈ (mbedtls_ecdh_compute_shared K envE grp z0 Q d).trace) ∧
      ((mbedtls_rsa_public K envR ctx output).ret = 0 →
        Event.mcuxClSession_cleanup ∈ (mbedtls_rsa_public K envR ctx output).trace ∧
        Event.mcuxClSession_destroy ∈ (mbedtls_rsa_public K envR ctx output).trace) ∧
      ((mbedtls_rsa_private K envR ctx output).ret = 0 →
        Event.mcuxClSession_cleanup ∈ (mbedtls_rsa_private K envR ctx output).trace ∧
        Event.mcuxClSession_destroy ∈ (mbedtls_rsa_private K envR ctx output).trace) ∧
      ((K.MCUX_CSSL_FP_FUNCTION_CALLED FpFunction.mcuxClRsa_verify ≠ envR.verify_token ∨
          K.MCUXCLRSA_STATUS_VERIFYPRIMITIVE_OK ≠ envR.verify_result ∨
          u32 ctx.len ≠ (mbedtls_mpi_bitlen ctx.N + 7) / 8) →
        Event.mcuxClSession_cleanup ∉ (mbedtls_rsa_public K envR ctx output).trace ∧
        Event.mcuxClSession_destroy ∉ (mbedtls_rsa_public K envR ctx output).trace) ∧
      ((K.MCUX_CSSL_FP_FUNCTION_CALLED FpFunction.mcuxClRsa_sign ≠ envR.sign_token ∨
          K.MCUXCLRSA_STATUS_SIGN_OK ≠ envR.sign_result ∨
          rsa_private_pqByteLength (u32 ctx.len) ≠ (mbedtls_mpi_bitlen ctx.P + 7) / 8 ∨
          rsa_private_pqByteLength (u32 ctx.len) ≠ (mbedtls_mpi_bitlen ctx.Q + 7) / 8) →
        Event.mcuxClSession_cleanup ∉ (mbedtls_rsa_private K envR ctx output).trace ∧
        Event.mcuxClSession_destroy ∉ (mbedtls_rsa_private K envR ctx output).trace) := by
  exact ⟨(gen_public_zero_iff_cleaned K envE grp d0 Q0 hK).1,
    (gen_public_zero_iff_cleaned K envE grp d0 Q0 hK).2,
    (compute_shared_zero_iff_cleaned K envE grp z0 Q d hK).1,
    (compute_shared_zero_iff_cleaned K envE grp z0 Q d hK).2,
    (rsa_public_cleanup_paths K envR ctx output hK).1,
    (rsa_private_cleanup_paths K envR ctx output hK).1,
    (rsa_public_cleanup_paths K envR ctx output hK).2,
    (rsa_private_cleanup_paths K envR ctx output hK).2⟩

/-- The sample error codes are all non-zero. -/
theorem sampleConsts_nonZero : ErrorCodesNonZero sampleConsts := by
  unfold ErrorCodesNonZero sampleConsts
  decide

/-- Witness for C12 (amended): with the sample constants, the successful run
of `mbedtls_ecdh_gen_public` returns `0` and calls `mcuxClSession_cleanup`;
the run of `mbedtls_rsa_public` with a mismatching verify token calls neither
`mcuxClSession_cleanup` nor `mcuxClSession_destroy`. -/
theorem C12_session_cleanup_paths_witness :
    ErrorCodesNonZero sampleConsts ∧
      (mbedtls_ecdh_gen_public sampleConsts (sampleEcdhEnv 0 0 0x1001 0xA5A5A5A5)
        sampleGrp 0 samplePoint).ret = 0 ∧
      Event.mcuxClSession_cleanup ∈
        (mbedtls_ecdh_gen_public sampleConsts (sampleEcdhEnv 0 0 0x1001 0xA5A5A5A5)
          sampleGrp 0 samplePoint).trace ∧
      (Event.mcuxClSession_cleanup ∉
          (mbedtls_rsa_public sampleConsts (sampleRsaEnv 0 0 0xF3F3F3F3 0x1004 0xF2F2F2F2)
            sampleRsaCtx [0, 0, 0, 0]).trace ∧
        Event.mcuxClSession_destroy ∉
          (mbedtls_rsa_public sampleConsts (sampleRsaEnv 0 0 0xF3F3F3F3 0x1004 0xF2F2F2F2)
            sampleRsaCtx [0, 0, 0, 0]).trace) :=
  have h := C12_session_cleanup_paths sampleConsts (sampleEcdhEnv 0 0 0x1001 0xA5A5A5A5)
    (sampleRsaEnv 0 0 0xF3F3F3F3 0x1004 0xF2F2F2F2) sampleGrp 0 samplePoint 0 samplePoint 3
    sampleRsaCtx [0, 0, 0, 0] sampleConsts_nonZero
  ⟨sampleConsts_nonZero, by decide, h.1.mp (by decide), h.2.2.2.2.2.2.1 (Or.inl (by decide))⟩

/-- A run of `mbedtls_ecdh_gen_public` that returns a non-zero code leaves `d`
and `Q` as they were. -/
theorem gen_public_failure_keeps_outputs (K : Consts) (env : EcdhEnv)
    (grp : mbedtls_ecp_group) (d : mbedtls_mpi) (Q : mbedtls_ecp_point)
    (hret : (mbedtls_ecdh_gen_public K env grp d Q).ret ≠ 0) :
    (mbedtls_ecdh_gen_public K env grp d Q).d = d ∧
      (mbedtls_ecdh_gen_public K env grp d Q).Q = Q := by
  revert hret
  by_cases hhw : env.mbedtls_hw_init = 0
  · by_cases hs : env.mbedtls_ecp_setupDomainParams grp = 0
    · by_cases hr : (env.f_rng RngArg.rng_ctx (u32 ((grp.nbits + 7) / 8))).1 = 0
      · by_cases ht : K.MCUX_CSSL_FP_FUNCTION_CALLED FpFunction.mcuxClEcc_PointMult
            = env.tokenEccPointMult
        · by_cases h1 : K.MCUXCLECC_STATUS_POINTMULT_INVALID_PARAMS = env.retEccPointMult
          · simp [mbedtls_ecdh_gen_public, hhw, hs, hr, ht, h1]
          · by_cases h2 : K.MCUXCLECC_STATUS_POINTMULT_RNG_ERROR = env.retEccPointMult
            · simp [mbedtls_ecdh_gen_public, hhw, hs, hr, ht, h1, h2]
            · by_cases h3 : K.MCUXCLECC_STATUS_POINTMULT_OK = env.retEccPointMult
              · simp [mbedtls_ecdh_gen_public, hhw, hs, hr, ht, h1, h2, h3]
              · simp [mbedtls_ecdh_gen_public, hhw, hs, hr, ht, h1, h2, h3]
        · simp [mbedtls_ecdh_gen_public, hhw, hs, hr, ht]
      · simp [mbedtls_ecdh_gen_public, hhw, hs, hr]
    · simp [mbedtls_ecdh_gen_public, hhw, hs]
  · simp [mbedtls_ecdh_gen_public, hhw]

/-- A run of `mbedtls_ecdh_compute_shared` that returns a non-zero code leaves
`z` as it was. -/
theorem compute_shared_failure_keeps_output (K : Consts) (env : EcdhEnv)
    (grp : mbedtls_ecp_group) (z : mbedtls_mpi) (Q : mbedtls_ecp_point) (d : mbedtls_mpi)
    (hret : (mbedtls_ecdh_compute_shared K env grp z Q d).ret ≠ 0) :
    (mbedtls_ecdh_compute_shared K env grp z Q d).z = z := by
  revert hret
  by_cases hhw : env.mbedtls_hw_init = 0
  · by_cases hs : env.mbedtls_ecp_setupDomainParams grp = 0
    · by_cases hX : env.mbedtls_mpi_write_binary Q.X (u32 ((grp.pbits + 7) / 8)) = 0
      · by_cases hY : env.mbedtls_mpi_write_binary Q.Y (u32 ((grp.pbits + 7) / 8)) = 0
        · by_cases hd : env.mbedtls_mpi_write_binary d (u32 ((grp.nbits + 7) / 8)) = 0
          · by_cases ht : K.MCUX_CSSL_FP_FUNCTION_CALLED FpFunction.mcuxClEcc_PointMult
                = env.tokenEccPointMult
            · by_cases h1 : K.MCUXCLECC_STATUS_POINTMULT_INVALID_PARAMS = env.retEccPointMult
              · simp [mbedtls_ecdh_compute_shared, hhw, hs, hX, hY, hd, ht, h1]
              · by_cases h2 : K.MCUXCLECC_STATUS_POINTMULT_RNG_ERROR = env.retEccPointMult
                · simp [mbedtls_ecdh_compute_shared, hhw, hs, hX, hY, hd, ht, h1, h2]
                · by_cases h3 : K.MCUXCLECC_STATUS_POINTMULT_OK = env.retEccPointMult
                  · simp [mbedtls_ecdh_compute_shared, hhw, hs, hX, hY, hd, ht, h1, h2, h3]
                  · simp [mbedtls_ecdh_compute_shared, hhw, hs, hX, hY, hd, ht, h1, h2, h3]
            · simp [mbedtls_ecdh_compute_shared, hhw, hs, hX, hY, hd, ht]
          · simp [mbedtls_ecdh_compute_shared, hhw, hs, hX, hY, hd]
        · simp [mbedtls_ecdh_compute_shared, hhw, hs, hX, hY]
      · simp [mbedtls_ecdh_compute_shared, hhw, hs, hX]
    · simp [mbedtls_ecdh_compute_shared, hhw, hs]
  · simp [mbedtls_ecdh_compute_shared, hhw]

/-- In `mbedtls_rsa_public` the output buffer is untouched on every run that
does not reach `mcuxClMemory_copy`; on every run that reaches it and in which
the copy succeeds, the first `nByteLength` bytes of the output buffer are
those of the result buffer and the remaining bytes are as before, whatever
the function then returns. -/
theorem rsa_public_output_paths (K : Consts) (env : RsaEnv) (ctx : mbedtls_rsa_context)
    (output : List Nat) :
    ((∀ src len, Event.mcuxClMemory_copy src len ∉
          (mbedtls_rsa_public K env ctx output).trace) →
        (mbedtls_rsa_public K env ctx output).output = output) ∧
      ((∃ src len, Event.mcuxClMemory_copy src len ∈
          (mbedtls_rsa_public K env ctx output).trace) →
        K.MCUX_CSSL_FP_FUNCTION_CALLED FpFunction.mcuxClMemory_copy = env.tokenMemCpy →
        env.retMemCpy = 0 →
        (mbedtls_rsa_public K env ctx output).output =
          overwriteStart (u32 ctx.len) env.pBufBytes output) := by
  by_cases hc : env.rsa_check_context ctx 0 0 = 0
  · by_cases hhw : env.mbedtls_hw_init = 0
    · by_cases hsi : K.MCUX_CSSL_FP_FUNCTION_CALLED FpFunction.mcuxClSession_init ≠ env.si_token
          ∨ K.MCUXCLSESSION_STATUS_OK ≠ env.si_status
      · simp [mbedtls_rsa_public, hc, hhw, hsi]
      · by_cases hl : u32 ctx.len = (mbedtls_mpi_bitlen ctx.N + 7) / 8
        · by_cases hv : K.MCUX_CSSL_FP_FUNCTION_CALLED FpFunction.mcuxClRsa_verify
              ≠ env.verify_token ∨ K.MCUXCLRSA_STATUS_VERIFYPRIMITIVE_OK ≠ env.verify_result
          · simp [mbedtls_rsa_public, hc, hhw, hsi, hl, hv]
          · have hv1 : ¬ (K.MCUX_CSSL_FP_FUNCTION_CALLED FpFunction.mcuxClRsa_verify
                ≠ env.verify_token) := fun h => hv (Or.inl h)
            have hv2 : ¬ (K.MCUXCLRSA_STATUS_VERIFYPRIMITIVE_OK ≠ env.verify_result) :=
              fun h => hv (Or.inr h)
            have hmem : Event.mcuxClMemory_copy (rsa_public_ptrs K (u32 ctx.len)).pBuf
                (u32 ctx.len) ∈ (mbedtls_rsa_public K env ctx output).trace := by
              by_cases hm : K.MCUX_CSSL_FP_FUNCTION_CALLED FpFunction.mcuxClMemory_copy
                  ≠ env.tokenMemCpy ∧ 0 ≠ env.retMemCpy
              · simp [mbedtls_rsa_public, hc, hhw, hsi, hl, hv, hv1, hv2, hm]
              · by_cases hcl : K.MCUX_CSSL_FP_FUNCTION_CALLED FpFunction.mcuxClSession_cleanup
                    ≠ env.cleanup_token ∨ K.MCUXCLSESSION_STATUS_OK ≠ env.cleanup_result
                · simp [mbedtls_rsa_public, hc, hhw, hsi, hl, hv, hv1, hv2, hm, hcl]
                · by_cases hde : K.MCUX_CSSL_FP_FUNCTION_CALLED FpFunction.mcuxClSession_destroy
                      ≠ env.destroy_token ∨ K.MCUXCLSESSION_STATUS_OK ≠ env.destroy_result
                  · simp [mbedtls_rsa_public, hc, hhw, hsi, hl, hv, hv1, hv2, hm, hcl, hde]
                  · simp [mbedtls_rsa_public, hc, hhw, hsi, hl, hv, hv1, hv2, hm, hcl, hde]
            have hout : (mbedtls_rsa_public K env ctx output).output =
                overwriteStart (u32 ctx.len) env.pBufBytes output := by
              by_cases hm : K.MCUX_CSSL_FP_FUNCTION_CALLED FpFunction.mcuxClMemory_copy
                  ≠ env.tokenMemCpy ∧ 0 ≠ env.retMemCpy
              · simp [mbedtls_rsa_public, hc, hhw, hsi, hl, hv, hv1, hv2, hm]
              · by_cases hcl : K.MCUX_CSSL_FP_FUNCTION_CALLED FpFunction.mcuxClSession_cleanup
                    ≠ env.cleanup_token ∨ K.MCUXCLSESSION_STATUS_OK ≠ env.cleanup_result
                · simp [mbedtls_rsa_public, hc, hhw, hsi, hl, hv, hv1, hv2, hm, hcl]
                · by_cases hde : K.MCUX_CSSL_FP_FUNCTION_CALLED FpFunction.mcuxClSession_destroy
                      ≠ env.destroy_token ∨ K.MCUXCLSESSION_STATUS_OK ≠ env.destroy_result
                  · simp [mbedtls_rsa_public, hc, hhw, hsi, hl, hv, hv1, hv2, hm, hcl, hde]
                  · simp [mbedtls_rsa_public, hc, hhw, hsi, hl, hv, hv1, hv2, hm, hcl, hde]
            exact ⟨fun hno => absurd hmem (hno _ _), fun _ _ _ => hout⟩
        · simp [mbedtls_rsa_public, hc, hhw, hsi, hl]
    · simp [mbedtls_rsa_public, hc, hhw]
  · simp [mbedtls_rsa_public, hc]

/-- In `mbedtls_rsa_private` the output buffer is untouched on every run that
does not reach `mcuxClMemory_copy`; on every run that reaches it and in which
the copy succeeds, the first `nByteLength` bytes of the output buffer are
those of the result buffer and the remaining bytes are as before, whatever
the function then returns. -/
theorem rsa_private_output_paths (K : Consts) (env : RsaEnv) (ctx : mbedtls_rsa_context)
    (output : List Nat) :
    ((∀ src len, Event.mcuxClMemory_copy src len ∉
          (mbedtls_rsa_private K env ctx output).trace) →
        (mbedtls_rsa_private K env ctx output).output = output) ∧
      ((∃ src len, Event.mcuxClMemory_copy src len ∈
          (mbedtls_rsa_private K env ctx output).trace) →
        K.MCUX_CSSL_FP_FUNCTION_CALLED FpFunction.mcuxClMemory_copy = env.tokenMemCpy →
        env.retMemCpy = 0 →
        (mbedtls_rsa_private K env ctx output).output =
          overwriteStart (u32 ctx.len) env.pBufBytes output) := by
  by_cases hc : env.rsa_check_context ctx 1 1 = 0
  · by_cases hhw : env.mbedtls_hw_init = 0
    · by_cases hsi : K.MCUX_CSSL_FP_FUNCTION_CALLED FpFunction.mcuxClSession_init ≠ env.si_token
          ∨ K.MCUXCLSESSION_STATUS_OK ≠ env.si_status
      · simp [mbedtls_rsa_private, hc, hhw, hsi]
      · by_cases hl : rsa_private_pqByteLength (u32 ctx.len) ≠ (mbedtls_mpi_bitlen ctx.P + 7) / 8
            ∨ rsa_private_pqByteLength (u32 ctx.len) ≠ (mbedtls_mpi_bitlen ctx.Q + 7) / 8
        · simp [mbedtls_rsa_private, hc, hhw, hsi, hl]
        · have hl1 : ¬ (rsa_private_pqByteLength (u32 ctx.len)
                ≠ (mbedtls_mpi_bitlen ctx.P + 7) / 8) := fun h => hl (Or.inl h)
          have hl2 : ¬ (rsa_private_pqByteLength (u32 ctx.len)
                ≠ (mbedtls_mpi_bitlen ctx.Q + 7) / 8) := fun h => hl (Or.inr h)
          by_cases hv : K.MCUX_CSSL_FP_FUNCTION_CALLED FpFunction.mcuxClRsa_sign
              ≠ env.sign_token ∨ K.MCUXCLRSA_STATUS_SIGN_OK ≠ env.sign_result
          · by_cases hi : K.MCUXCLRSA_STATUS_INVALID_INPUT = env.sign_result
            · simp [mbedtls_rsa_private, hc, hhw, hsi, hl, hv, hi]
            · simp [mbedtls_rsa_private, hc, hhw, hsi, hl, hv, hi]
          · have hv1 : ¬ (K.MCUX_CSSL_FP_FUNCTION_CALLED FpFunction.mcuxClRsa_sign
                ≠ env.sign_token) := fun h => hv (Or.inl h)
            have hv2 : ¬ (K.MCUXCLRSA_STATUS_SIGN_OK ≠ env.sign_result) :=
              fun h => hv (Or.inr h)
            have hmem : Event.mcuxClMemory_copy (rsa_private_ptrs K (u32 ctx.len)).pBuf
                (u32 ctx.len) ∈ (mbedtls_rsa_private K env ctx output).trace := by
              by_cases hm : K.MCUX_CSSL_FP_FUNCTION_CALLED FpFunction.mcuxClMemory_copy
                  ≠ env.tokenMemCpy ∧ 0 ≠ env.retMemCpy
              · simp [mbedtls_rsa_private, hc, hhw, hsi, hl, hl1, hl2, hv, hv1, hv2, hm]
              · by_cases hcl : K.MCUX_CSSL_FP_FUNCTION_CALLED FpFunction.mcuxClSession_cleanup
                    ≠ env.cleanup_token ∨ K.MCUXCLSESSION_STATUS_OK ≠ env.cleanup_result
                · simp [mbedtls_rsa_private, hc, hhw, hsi, hl, hl1, hl2, hv, hv1, hv2, hm, hcl]
                · by_cases hde : K.MCUX_CSSL_FP_FUNCTION_CALLED FpFunction.mcuxClSession_destroy
                      ≠ env.destroy_token ∨ K.MCUXCLSESSION_STATUS_OK ≠ env.destroy_result
                  · simp [mbedtls_rsa_private, hc, hhw, hsi, hl, hl1, hl2, hv, hv1, hv2, hm,
                      hcl, hde]
                  · simp [mbedtls_rsa_private, hc, hhw, hsi, hl, hl1, hl2, hv, hv1, hv2, hm,
                      hcl, hde]
            have hout : (mbedtls_rsa_private K env ctx output).output =
                overwriteStart (u32 ctx.len) env.pBufBytes output := by
              by_cases hm : K.MCUX_CSSL_FP_FUNCTION_CALLED FpFunction.mcuxClMemory_copy
                  ≠ env.tokenMemCpy ∧ 0 ≠ env.retMemCpy
              · simp [mbedtls_rsa_private, hc, hhw, hsi, hl, hl1, hl2, hv, hv1, hv2, hm]
              · by_cases hcl : K.MCUX_CSSL_FP_FUNCTION_CALLED FpFunction.mcuxClSession_cleanup
                    ≠ env.cleanup_token ∨ K.MCUXCLSESSION_STATUS_OK ≠ env.cleanup_result
                · simp [mbedtls_rsa_private, hc, hhw, hsi, hl, hl1, hl2, hv, hv1, hv2, hm, hcl]
                · by_cases hde : K.MCUX_CSSL_FP_FUNCTION_CALLED FpFunction.mcuxClSession_destroy
                      ≠ env.destroy_token ∨ K.MCUXCLSESSION_STATUS_OK ≠ env.destroy_result
                  · simp [mbedtls_rsa_private, hc, hhw, hsi, hl, hl1, hl2, hv, hv1, hv2, hm,
                      hcl, hde]
                  · simp [mbedtls_rsa_private, hc, hhw, hsi, hl, hl1, hl2, hv, hv1, hv2, hm,
                      hcl, hde]
            exact ⟨fun hno => absurd hmem (hno _ _), fun _ _ _ => hout⟩
    · simp [mbedtls_rsa_private, hc, hhw]
  · simp [mbedtls_rsa_private, hc]

/-- C13 (counterexample): when every call succeeds except
`mcuxClSession_cleanup`, `mbedtls_rsa_public` and `mbedtls_rsa_private` return
the non-zero codes `MBEDTLS_ERR_RSA_PUBLIC_FAILED` and
`MBEDTLS_ERR_RSA_PRIVATE_FAILED` although the output buffer, `[0, 0, 0, 0]`
before the call, already holds the result `[1, 2, 3, 4]`; in a six-byte buffer
`[9, 9, 9, 9, 9, 9]` the first four bytes have been overwritten. -/
theorem C13_rsa_output_written_before_cleanup_failure :
    (mbedtls_rsa_public sampleConsts cleanupFailRsaEnv sampleRsaCtx [0, 0, 0, 0]).ret
        = -0x4280 ∧
      (mbedtls_rsa_public sampleConsts cleanupFailRsaEnv sampleRsaCtx [0, 0, 0, 0]).output
        = [1, 2, 3, 4] ∧
      (mbedtls_rsa_private sampleConsts cleanupFailRsaEnv sampleRsaCtx [0, 0, 0, 0]).ret
        = -0x4300 ∧
      (mbedtls_rsa_private sampleConsts cleanupFailRsaEnv sampleRsaCtx [0, 0, 0, 0]).output
        = [1, 2, 3, 4] ∧
      (mbedtls_rsa_public sampleConsts cleanupFailRsaEnv sampleRsaCtx
        [9, 9, 9, 9, 9, 9]).output = [1, 2, 3, 4, 9, 9] ∧
      (mbedtls_rsa_private sampleConsts cleanupFailRsaEnv sampleRsaCtx
        [9, 9, 9, 9, 9, 9]).output = [1, 2, 3, 4, 9, 9] := by
  decide

/-- C13 (amended): whenever `mbedtls_ecdh_gen_public` returns non-zero it has
not written `d` or `Q`, and whenever `mbedtls_ecdh_compute_shared` returns
non-zero it has not written `z`; `mbedtls_rsa_public` and
`mbedtls_rsa_private` have not written to the output buffer on any run that
ends before `mcuxClMemory_copy` is called, and once that copy has been made
the first `nByteLength` bytes of the output buffer hold the result (the bytes
after them are unchanged), whatever code is returned afterwards. -/
theorem C13_outputs_on_failure (K : Consts) (envE : EcdhEnv) (envR : RsaEnv)
    (grp : mbedtls_ecp_group) (d0 : mbedtls_mpi) (Q0 : mbedtls_ecp_point)
    (z0 : mbedtls_mpi) (Q : mbedtls_ecp_point) (d : mbedtls_mpi)
    (ctx : mbedtls_rsa_context) (output : List Nat) :
    ((mbedtls_ecdh_gen_public K envE grp d0 Q0).ret ≠ 0 →
        (mbedtls_ecdh_gen_public K envE grp d0 Q0).d = d0 ∧
        (mbedtls_ecdh_gen_public K envE grp d0 Q0).Q = Q0) ∧
      ((mbedtls_ecdh_compute_shared K envE grp z0 Q d).ret ≠ 0 →
        (mbedtls_ecdh_compute_shared K envE grp z0 Q d).z = z0) ∧
      ((∀ src len, Event.mcuxClMemory_copy src len ∉
          (mbedtls_rsa_public K envR ctx output).trace) →
        (mbedtls_rsa_public K envR ctx output).output = output) ∧
      ((∀ src len, Event.mcuxClMemory_copy src len ∉
          (mbedtls_rsa_private K envR ctx output).trace) →
        (mbedtls_rsa_private K envR ctx output).output = output) ∧
      ((∃ src len, Event.mcuxClMemory_copy src len ∈
          (mbedtls_rsa_public K envR ctx output).trace) →
        K.MCUX_CSSL_FP_FUNCTION_CALLED FpFunction.mcuxClMemory_copy = envR.tokenMemCpy →
        envR.retMemCpy = 0 →
        (mbedtls_rsa_public K envR ctx output).output =
          overwriteStart (u32 ctx.len) envR.pBufBytes output) ∧
      ((∃ src len, Event.mcuxClMemory_copy src len ∈
          (mbedtls_rsa_private K envR ctx output).trace) →
        K.MCUX_CSSL_FP_FUNCTION_CALLED FpFunction.mcuxClMemory_copy = envR.tokenMemCpy →
        envR.retMemCpy = 0 →
        (mbedtls_rsa_private K envR ctx output).output =
          overwriteStart (u32 ctx.len) envR.pBufBytes output) :=
  ⟨gen_public_failure_keeps_outputs K envE grp d0 Q0,
    compute_shared_failure_keeps_output K envE grp z0 Q d,
    (rsa_public_output_paths K envR ctx output).1,
    (rsa_private_output_paths K envR ctx output).1,
    (rsa_public_output_paths K envR ctx output).2,
    (rsa_private_output_paths K envR ctx output).2⟩

/-- Witness for C13 (amended): with the sample constants, the run of
`mbedtls_ecdh_gen_public` with a mismatching token returns non-zero and leaves
`d` and `Q` unchanged; the run of `mbedtls_rsa_public` with a mismatching
verify token leaves the output buffer unchanged; the run of
`mbedtls_rsa_public` in which only `mcuxClSession_cleanup` fails has
overwritten the first four bytes of a six-byte output buffer. -/
theorem C13_outputs_on_failure_witness :
    (mbedtls_ecdh_gen_public sampleConsts (sampleEcdhEnv 0 0 0 0xA5A5A5A5)
        sampleGrp 0 samplePoint).ret ≠ 0 ∧
      ((mbedtls_ecdh_gen_public sampleConsts (sampleEcdhEnv 0 0 0 0xA5A5A5A5)
          sampleGrp 0 samplePoint).d = 0 ∧
        (mbedtls_ecdh_gen_public sampleConsts (sampleEcdhEnv 0 0 0 0xA5A5A5A5)
          sampleGrp 0 samplePoint).Q = samplePoint) ∧
      (mbedtls_rsa_public sampleConsts (sampleRsaEnv 0 0 0xF3F3F3F3 0x1004 0xF2F2F2F2)
        sampleRsaCtx [0, 0, 0, 0]).output = [0, 0, 0, 0] ∧
      (mbedtls_rsa_public sampleConsts cleanupFailRsaEnv sampleRsaCtx
        [9, 9, 9, 9, 9, 9]).output = overwriteStart 4 [1, 2, 3, 4] [9, 9, 9, 9, 9, 9] ∧
      overwriteStart 4 [1, 2, 3, 4] [9, 9, 9, 9, 9, 9] = [1, 2, 3, 4, 9, 9] :=
  have h := C13_outputs_on_failure sampleConsts (sampleEcdhEnv 0 0 0 0xA5A5A5A5)
    (sampleRsaEnv 0 0 0xF3F3F3F3 0x1004 0xF2F2F2F2) sampleGrp 0 samplePoint 0 samplePoint 3
    sampleRsaCtx [0, 0, 0, 0]
  have h6 := C13_outputs_on_failure sampleConsts (sampleEcdhEnv 0 0 0 0xA5A5A5A5)
    cleanupFailRsaEnv sampleGrp 0 samplePoint 0 samplePoint 3
    sampleRsaCtx [9, 9, 9, 9, 9, 9]
  have ht : (mbedtls_rsa_public sampleConsts (sampleRsaEnv 0 0 0xF3F3F3F3 0x1004 0xF2F2F2F2)
      sampleRsaCtx [0, 0, 0, 0]).trace =
        [Event.mbedtls_hw_init, Event.mcuxClSession_init,
         Event.mbedtls_mpi_write_binary Operand.N 0x20008000 4,
         Event.mbedtls_mpi_write_binary Operand.E 0x20008004 3,
         Event.pkcWa_used_add 4, Event.mcuxClRsa_verify] := by decide
  ⟨by decide, h.1 (by decide),
    h.2.2.1 (fun src len hmem => by
      rw [ht] at hmem
      simp at hmem),
    h6.2.2.2.2.1 ⟨0x20008008, 4, by decide⟩ rfl rfl,
    by decide⟩

/-- A buffer into which exactly `len` bytes were written holds those bytes. -/
theorem bufferPrefix_of_length (len : Nat) (bytes : List Nat) (h : bytes.length = len) :
    bufferPrefix len bytes = bytes := by
  unfold bufferPrefix
  rw [List.take_append_of_le_length (le_of_eq h.symm)]
  exact List.take_of_length_le (le_of_eq h)

/-- C14: when `mbedtls_ecdh_gen_public` returns `0` (error codes non-zero, no
32-bit wrap of the byte lengths, the random source having produced
`nByteLength` bytes and the result buffer holding `2 * pByteLength` bytes),
`d` is the big-endian value of the bytes of the random source, `Q.X` the
big-endian value of the first `pByteLength` bytes of the result buffer, `Q.Y`
that of the next `pByteLength` bytes, and `Q.Z` is `1`. -/
theorem C14_gen_public_outputs (K : Consts) (env : EcdhEnv) (grp : mbedtls_ecp_group)
    (d0 : mbedtls_mpi) (Q0 : mbedtls_ecp_point)
    (hK : ErrorCodesNonZero K)
    (hp : (grp.pbits + 7) / 8 * 2 < 2 ^ 32)
    (hn : (grp.nbits + 7) / 8 < 2 ^ 32)
    (hrng : (env.f_rng RngArg.rng_ctx ((grp.nbits + 7) / 8)).2.length = (grp.nbits + 7) / 8)
    (hres : env.pResultBytes.length = (grp.pbits + 7) / 8 * 2)
    (hret : (mbedtls_ecdh_gen_public K env grp d0 Q0).ret = 0) :
    (mbedtls_ecdh_gen_public K env grp d0 Q0).d =
        Int.ofNat (fromBytesBE (env.f_rng RngArg.rng_ctx ((grp.nbits + 7) / 8)).2) ∧
      (mbedtls_ecdh_gen_public K env grp d0 Q0).Q.X =
        Int.ofNat (fromBytesBE (env.pResultBytes.take ((grp.pbits + 7) / 8))) ∧
      (mbedtls_ecdh_gen_public K env grp d0 Q0).Q.Y =
        Int.ofNat (fromBytesBE
          ((env.pResultBytes.drop ((grp.pbits + 7) / 8)).take ((grp.pbits + 7) / 8))) ∧
      (mbedtls_ecdh_gen_public K env grp d0 Q0).Q.Z = 1 := by
  obtain ⟨k1, k2, k3, k4, _, _, _, _⟩ := hK
  have hun : u32 ((grp.nbits + 7) / 8) = (grp.nbits + 7) / 8 := u32_of_lt hn
  have hup : u32 ((grp.pbits + 7) / 8) = (grp.pbits + 7) / 8 := u32_of_lt (by omega)
  have hu2 : u32 ((grp.pbits + 7) / 8 * 2) = (grp.pbits + 7) / 8 * 2 := u32_of_lt hp
  have hb1 := bufferPrefix_of_length _ _ hrng
  have hb2 := bufferPrefix_of_length _ _ hres
  revert hret
  by_cases hhw : env.mbedtls_hw_init = 0
  · by_cases hs : env.mbedtls_ecp_setupDomainParams grp = 0
    · by_cases hr : (env.f_rng RngArg.rng_ctx ((grp.nbits + 7) / 8)).1 = 0
      · by_cases ht : K.MCUX_CSSL_FP_FUNCTION_CALLED FpFunction.mcuxClEcc_PointMult
            = env.tokenEccPointMult
        · by_cases h1 : K.MCUXCLECC_STATUS_POINTMULT_INVALID_PARAMS = env.retEccPointMult
          · simp [mbedtls_ecdh_gen_public, hun, hup, hu2, hhw, hs, hr, ht, h1, k1]
          · by_cases h2 : K.MCUXCLECC_STATUS_POINTMULT_RNG_ERROR = env.retEccPointMult
            · simp [mbedtls_ecdh_gen_public, hun, hup, hu2, hhw, hs, hr, ht, h1, h2, k2]
            · by_cases h3 : K.MCUXCLECC_STATUS_POINTMULT_OK = env.retEccPointMult
              · simp [mbedtls_ecdh_gen_public, hun, hup, hu2, hhw, hs, hr, ht, h1, h2, h3,
                  hb1, hb2]
              · simp [mbedtls_ecdh_gen_public, hun, hup, hu2, hhw, hs, hr, ht, h1, h2, h3, k3]
        · simp [mbedtls_ecdh_gen_public, hun, hup, hu2, hhw, hs, hr, ht, k3]
      · simp [mbedtls_ecdh_gen_public, hun, hup, hu2, hhw, hs, hr, k3]
    · simp [mbedtls_ecdh_gen_public, hun, hup, hu2, hhw, hs, k3]
  · simp [mbedtls_ecdh_gen_public, hhw, k4]

/-- Witness for C14: the sample group (32-byte prime and order) with a random
source that produces 32 bytes `0x5A` and a result buffer of 64 bytes `0x11`. -/
theorem C14_gen_public_outputs_witness :
    ErrorCodesNonZero sampleConsts ∧
      (mbedtls_ecdh_gen_public sampleConsts (sampleEcdhEnv 0 0 0x1001 0xA5A5A5A5)
        sampleGrp 0 samplePoint).ret = 0 ∧
      (mbedtls_ecdh_gen_public sampleConsts (sampleEcdhEnv 0 0 0x1001 0xA5A5A5A5)
        sampleGrp 0 samplePoint).d = Int.ofNat (fromBytesBE (List.replicate 32 0x5A)) ∧
      (mbedtls_ecdh_gen_public sampleConsts (sampleEcdhEnv 0 0 0x1001 0xA5A5A5A5)
        sampleGrp 0 samplePoint).Q.Z = 1 :=
  have h := C14_gen_public_outputs sampleConsts (sampleEcdhEnv 0 0 0x1001 0xA5A5A5A5)
    sampleGrp 0 samplePoint sampleConsts_nonZero (by decide) (by decide) (by decide)
    (by decide) (by decide)
  ⟨sampleConsts_nonZero, by decide, h.1, h.2.2.2⟩

/-- With non-zero error codes, `mbedtls_rsa_public` returns `0` only if
session initialisation, verify, clean-up and destroy each returned the
expected token and the success status; of the memory copy it only requires
that the token matches or the status is `0`. -/
theorem rsa_public_zero_requires (K : Consts) (env : RsaEnv) (ctx : mbedtls_rsa_context)
    (output : List Nat) (hK : ErrorCodesNonZero K)
    (hret : (mbedtls_rsa_public K env ctx output).ret = 0) :
    (K.MCUX_CSSL_FP_FUNCTION_CALLED FpFunction.mcuxClSession_init = env.si_token ∧
        K.MCUXCLSESSION_STATUS_OK = env.si_status) ∧
      (K.MCUX_CSSL_FP_FUNCTION_CALLED FpFunction.mcuxClRsa_verify = env.verify_token ∧
        K.MCUXCLRSA_STATUS_VERIFYPRIMITIVE_OK = env.verify_result) ∧
      (K.MCUX_CSSL_FP_FUNCTION_CALLED FpFunction.mcuxClMemory_copy = env.tokenMemCpy ∨
        0 = env.retMemCpy) ∧
      (K.MCUX_CSSL_FP_FUNCTION_CALLED FpFunction.mcuxClSession_cleanup = env.cleanup_token ∧
        K.MCUXCLSESSION_STATUS_OK = env.cleanup_result) ∧
      (K.MCUX_CSSL_FP_FUNCTION_CALLED FpFunction.mcuxClSession_destroy = env.destroy_token ∧
        K.MCUXCLSESSION_STATUS_OK = env.destroy_result) := by
  obtain ⟨_, _, _, _, k5, k6, k7, _⟩ := hK
  revert hret
  by_cases hc : env.rsa_check_context ctx 0 0 = 0
  · by_cases hhw : env.mbedtls_hw_init = 0
    · by_cases hsi : K.MCUX_CSSL_FP_FUNCTION_CALLED FpFunction.mcuxClSession_init ≠ env.si_token
          ∨ K.MCUXCLSESSION_STATUS_OK ≠ env.si_status
      · simp [mbedtls_rsa_public, hc, hhw, hsi, k7]
      · by_cases hl : u32 ctx.len = (mbedtls_mpi_bitlen ctx.N + 7) / 8
        · by_cases hv : K.MCUX_CSSL_FP_FUNCTION_CALLED FpFunction.mcuxClRsa_verify
              ≠ env.verify_token ∨ K.MCUXCLRSA_STATUS_VERIFYPRIMITIVE_OK ≠ env.verify_result
          · simp [mbedtls_rsa_public, hc, hhw, hsi, hl, hv, k7]
          · by_cases hm : K.MCUX_CSSL_FP_FUNCTION_CALLED FpFunction.mcuxClMemory_copy
                ≠ env.tokenMemCpy ∧ 0 ≠ env.retMemCpy
            · simp [mbedtls_rsa_public, hc, hhw, hsi, hl, hv, hm, k7]
            · by_cases hcl : K.MCUX_CSSL_FP_FUNCTION_CALLED FpFunction.mcuxClSession_cleanup
                  ≠ env.cleanup_token ∨ K.MCUXCLSESSION_STATUS_OK ≠ env.cleanup_result
              · simp [mbedtls_rsa_public, hc, hhw, hsi, hl, hv, hm, hcl, k7]
              · by_cases hde : K.MCUX_CSSL_FP_FUNCTION_CALLED FpFunction.mcuxClSession_destroy
                    ≠ env.destroy_token ∨ K.MCUXCLSESSION_STATUS_OK ≠ env.destroy_result
                · simp [mbedtls_rsa_public, hc, hhw, hsi, hl, hv, hm, hcl, hde, k7]
                · intro _
                  refine ⟨?_, ?_, ?_, ?_, ?_⟩
                  · exact ⟨by_contra fun h => hsi (Or.inl h), by_contra fun h => hsi (Or.inr h)⟩
                  · exact ⟨by_contra fun h => hv (Or.inl h), by_contra fun h => hv (Or.inr h)⟩
                  · by_contra h
                    exact hm ⟨fun h1 => h (Or.inl h1), fun h2 => h (Or.inr h2)⟩
                  · exact ⟨by_contra fun h => hcl (Or.inl h), by_contra fun h => hcl (Or.inr h)⟩
                  · exact ⟨by_contra fun h => hde (Or.inl h), by_contra fun h => hde (Or.inr h)⟩
        · simp [mbedtls_rsa_public, hc, hhw, hsi, hl, k6]
    · simp [mbedtls_rsa_public, hc, hhw, k5]
  · simp [mbedtls_rsa_public, hc, k6]

/-- With non-zero error codes, `mbedtls_rsa_private` returns `0` only if
session initialisation, sign, clean-up and destroy each returned the expected
token and the success status; of the memory copy it only requires that the
token matches or the status is `0`. -/
theorem rsa_private_zero_requires (K : Consts) (env : RsaEnv) (ctx : mbedtls_rsa_context)
    (output : List Nat) (hK : ErrorCodesNonZero K)
    (hret : (mbedtls_rsa_private K env ctx output).ret = 0) :
    (K.MCUX_CSSL_FP_FUNCTION_CALLED FpFunction.mcuxClSession_init = env.si_token ∧
        K.MCUXCLSESSION_STATUS_OK = env.si_status) ∧
      (K.MCUX_CSSL_FP_FUNCTION_CALLED FpFunction.mcuxClRsa_sign = env.sign_token ∧
        K.MCUXCLRSA_STATUS_SIGN_OK = env.sign_result) ∧
      (K.MCUX_CSSL_FP_FUNCTION_CALLED FpFunction.mcuxClMemory_copy = env.tokenMemCpy ∨
        0 = env.retMemCpy) ∧
      (K.MCUX_CSSL_FP_FUNCTION_CALLED FpFunction.mcuxClSession_cleanup = env.cleanup_token ∧
        K.MCUXCLSESSION_STATUS_OK = env.cleanup_result) ∧
      (K.MCUX_CSSL_FP_FUNCTION_CALLED FpFunction.mcuxClSession_destroy = env.destroy_token ∧
        K.MCUXCLSESSION_STATUS_OK = env.destroy_result) := by
  obtain ⟨_, _, _, _, k5, k6, _, k8⟩ := hK
  revert hret
  by_cases hc : env.rsa_check_context ctx 1 1 = 0
  · by_cases hhw : env.mbedtls_hw_init = 0
    · by_cases hsi : K.MCUX_CSSL_FP_FUNCTION_CALLED FpFunction.mcuxClSession_init ≠ env.si_token
          ∨ K.MCUXCLSESSION_STATUS_OK ≠ env.si_status
      · simp [mbedtls_rsa_private, hc, hhw, hsi, k8]
      · by_cases hl : rsa_private_pqByteLength (u32 ctx.len) ≠ (mbedtls_mpi_bitlen ctx.P + 7) / 8
            ∨ rsa_private_pqByteLength (u32 ctx.len) ≠ (mbedtls_mpi_bitlen ctx.Q + 7) / 8
        · simp [mbedtls_rsa_private, hc, hhw, hsi, hl, k6]
        · by_cases hv : K.MCUX_CSSL_FP_FUNCTION_CALLED FpFunction.mcuxClRsa_sign
              ≠ env.sign_token ∨ K.MCUXCLRSA_STATUS_SIGN_OK ≠ env.sign_result
          · by_cases hi : K.MCUXCLRSA_STATUS_INVALID_INPUT = env.sign_result
            · simp [mbedtls_rsa_private, hc, hhw, hsi, hl, hv, hi, k6]
            · simp [mbedtls_rsa_private, hc, hhw, hsi, hl, hv, hi, k8]
          · by_cases hm : K.MCUX_CSSL_FP_FUNCTION_CALLED FpFunction.mcuxClMemory_copy
                ≠ env.tokenMemCpy ∧ 0 ≠ env.retMemCpy
            · simp [mbedtls_rsa_private, hc, hhw, hsi, hl, hv, hm, k8]
            · by_cases hcl : K.MCUX_CSSL_FP_FUNCTION_CALLED FpFunction.mcuxClSession_cleanup
                  ≠ env.cleanup_token ∨ K.MCUXCLSESSION_STATUS_OK ≠ env.cleanup_result
              · simp [mbedtls_rsa_private, hc, hhw, hsi, hl, hv, hm, hcl, k8]
              · by_cases hde : K.MCUX_CSSL_FP_FUNCTION_CALLED FpFunction.mcuxClSession_destroy
                    ≠ env.destroy_token ∨ K.MCUXCLSESSION_STATUS_OK ≠ env.destroy_result
                · simp [mbedtls_rsa_private, hc, hhw, hsi, hl, hv, hm, hcl, hde, k8]
                · intro _
                  refine ⟨?_, ?_, ?_, ?_, ?_⟩
                  · exact ⟨by_contra fun h => hsi (Or.inl h), by_contra fun h => hsi (Or.inr h)⟩
                  · exact ⟨by_contra fun h => hv (Or.inl h), by_contra fun h => hv (Or.inr h)⟩
                  · by_contra h
                    exact hm ⟨fun h1 => h (Or.inl h1), fun h2 => h (Or.inr h2)⟩
                  · exact ⟨by_contra fun h => hcl (Or.inl h), by_contra fun h => hcl (Or.inr h)⟩
                  · exact ⟨by_contra fun h => hde (Or.inl h), by_contra fun h => hde (Or.inr h)⟩
    · simp [mbedtls_rsa_private, hc, hhw, k5]
  · simp [mbedtls_rsa_private, hc, k6]

/-- C15 (the code at the failing input): when every call succeeds except that
`mcuxClMemory_copy` returns a token different from the expected one (with
status `0`), `mbedtls_rsa_public` and `mbedtls_rsa_private` both return `0`:
the mismatching token alone does not make the operation fail. -/
theorem C15_memcpy_token_mismatch_returns_zero :
    memcpyTokenMismatchRsaEnv.tokenMemCpy ≠
        sampleConsts.MCUX_CSSL_FP_FUNCTION_CALLED FpFunction.mcuxClMemory_copy ∧
      memcpyTokenMismatchRsaEnv.retMemCpy = 0 ∧
      (mbedtls_rsa_public sampleConsts memcpyTokenMismatchRsaEnv sampleRsaCtx
        [0, 0, 0, 0]).ret = 0 ∧
      (mbedtls_rsa_private sampleConsts memcpyTokenMismatchRsaEnv sampleRsaCtx
        [0, 0, 0, 0]).ret = 0 := by
  decide

/-- No run of `mbedtls_ecdh_gen_public` hands the caller's context `p_rng` to
the random source. -/
theorem gen_public_never_passes_p_rng (K : Consts) (env : EcdhEnv)
    (grp : mbedtls_ecp_group) (d : mbedtls_mpi) (Q : mbedtls_ecp_point) (buf len : Nat) :
    Event.f_rng RngArg.p_rng buf len ∉ (mbedtls_ecdh_gen_public K env grp d Q).trace := by
  by_cases hhw : env.mbedtls_hw_init = 0
  · by_cases hs : env.mbedtls_ecp_setupDomainParams grp = 0
    · by_cases hr : (env.f_rng RngArg.rng_ctx (u32 ((grp.nbits + 7) / 8))).1 = 0
      · by_cases ht : K.MCUX_CSSL_FP_FUNCTION_CALLED FpFunction.mcuxClEcc_PointMult
            = env.tokenEccPointMult
        · by_cases h1 : K.MCUXCLECC_STATUS_POINTMULT_INVALID_PARAMS = env.retEccPointMult
          · simp [mbedtls_ecdh_gen_public, hhw, hs, hr, ht, h1, freeEvents]
          · by_cases h2 : K.MCUXCLECC_STATUS_POINTMULT_RNG_ERROR = env.retEccPointMult
            · simp [mbedtls_ecdh_gen_public, hhw, hs, hr, ht, h1, h2, freeEvents]
            · by_cases h3 : K.MCUXCLECC_STATUS_POINTMULT_OK = env.retEccPointMult
              · simp [mbedtls_ecdh_gen_public, hhw, hs, hr, ht, h1, h2, h3, freeEvents]
              · simp [mbedtls_ecdh_gen_public, hhw, hs, hr, ht, h1, h2, h3, freeEvents]
        · simp [mbedtls_ecdh_gen_public, hhw, hs, hr, ht, freeEvents]
      · simp [mbedtls_ecdh_gen_public, hhw, hs, hr]
    · simp [mbedtls_ecdh_gen_public, hhw, hs, freeEvents]
  · simp [mbedtls_ecdh_gen_public, hhw]

/-- C16 (the code at the failing input): on a successful run with a random
source whose output depends on its context (`0xAA` bytes for the caller's
`p_rng`, `0x5A` bytes otherwise), `mbedtls_ecdh_gen_public` calls the random
source once, for 32 bytes, with the address of its local `rng_ctx` and not
with `p_rng`; the scalar `d` it returns is the `0x5A` value, not the value the
caller's context would have given. -/
theorem C16_gen_public_passes_local_rng_ctx :
    (mbedtls_ecdh_gen_public sampleConsts ctxSensitiveEcdhEnv sampleGrp 0
        samplePoint).ret = 0 ∧
      (mbedtls_ecdh_gen_public sampleConsts ctxSensitiveEcdhEnv sampleGrp 0
        samplePoint).trace.filter isRngCall = [Event.f_rng RngArg.rng_ctx 0x1500 32] ∧
      Event.f_rng RngArg.p_rng 0x1500 32 ∉
        (mbedtls_ecdh_gen_public sampleConsts ctxSensitiveEcdhEnv sampleGrp 0
          samplePoint).trace ∧
      (mbedtls_ecdh_gen_public sampleConsts ctxSensitiveEcdhEnv sampleGrp 0
        samplePoint).d = Int.ofNat (fromBytesBE (List.replicate 32 0x5A)) ∧
      (mbedtls_ecdh_gen_public sampleConsts ctxSensitiveEcdhEnv sampleGrp 0
        samplePoint).d ≠
          Int.ofNat (fromBytesBE (ctxSensitiveEcdhEnv.f_rng RngArg.p_rng 32).2) := by
  decide

end PkcPort
